import Mathlib

/-!
Verification development for the FCS bot match/entity engine.

The Python sources (logic.py, vtt_commands.py) are shallowly embedded below.
Conventions used throughout:
  - Python dicts preserve insertion order and are modelled as association
    lists (List (String × Entity) and friends); dict keys are unique in any
    state reachable through the Python API, which appears as a Nodup
    hypothesis where a proof needs it.
  - Python in-place mutation is modelled by explicit state passing; a method
    that mutates some fields and then raises returns the mutated state
    together with the error, matching the fact that mutations made before a
    raise persist in Python.
  - Machine integers are Int (Python ints are unbounded, so no wrap-around
    modelling is needed); float arithmetic in the facing computation is
    exact on halves and is modelled by doubled integers.
  - Exceptions are modelled with Except / Option error components.
  - Python str.lower and str.strip are modelled over the ASCII subset
    (all strings the program compares or lowercases in the claims are
    ASCII).
  - The weak back-reference Entity._match is modelled by a boolean bound
    flag on the entity plus explicit passing of the owning match to each
    operation, exactly as the command layer invokes the methods.
-/

namespace VTT

/-! ## String helpers (model of Python str.lower, str.strip, code points) -/

/-- Model of Python str.lower restricted to ASCII (Char.toLower maps only
the letters A-Z; the Python original is unicode aware, which the program
never relies on). -/
def pyLower (s : String) : String := ⟨s.data.map Char.toLower⟩

def isPyWs (c : Char) : Bool :=
  c = ' ' || c = '\t' || c = '\n' || c = '\r'

def trimChars (l : List Char) : List Char :=
  ((l.dropWhile isPyWs).reverse.dropWhile isPyWs).reverse

/-- Model of Python str.strip() without arguments (ASCII whitespace). -/
def pyTrim (s : String) : String := ⟨trimChars s.data⟩

/-- The list of code points of a string; Python compares strings
lexicographically by code point. -/
def strKey (s : String) : List Nat := s.data.map (fun c => c.val.toNat)

/-- Python string comparison s <= t as a Prop, via code-point lists. -/
def StrLE (s t : String) : Prop := strKey s ≤ strKey t

instance : DecidableRel StrLE := fun s t =>
  inferInstanceAs (Decidable (strKey s ≤ strKey t))

instance : IsTotal String StrLE := ⟨fun s t => le_total (strKey s) (strKey t)⟩

instance : IsTrans String StrLE := ⟨fun _ _ _ h h2 => le_trans h h2⟩

/-- Model of Python sorted() on a list of strings. -/
def sortedStrs (l : List String) : List String := List.insertionSort StrLE l

/-- Model of ", ".join(...) over a list of strings. -/
def joinComma : List String → String
  | [] => ""
  | [s] => s
  | s :: rest => s ++ ", " ++ joinComma rest

/-! ## Directions, errors, rule values -/

/-- The four facing directions (logic.py Direction / ALLOWED_DIRECTIONS). -/
inductive Dir where
  | up
  | down
  | left
  | right
deriving DecidableEq, Repr

def dirToStr : Dir → String
  | .up => "up"
  | .down => "down"
  | .left => "left"
  | .right => "right"

/-- Membership test in ALLOWED_DIRECTIONS, and conversion of a raw string. -/
def strToDir : String → Option Dir
  | "up" => some .up
  | "down" => some .down
  | "left" => some .left
  | "right" => some .right
  | _ => none

/-- The VTTError hierarchy of logic.py: OutOfBounds, Occupied, NotFound and
DuplicateId are subclasses of VTTError; vtt covers a plain VTTError. -/
inductive VErr where
  | outOfBounds (msg : String)
  | occupied (msg : String)
  | notFound (msg : String)
  | duplicateId (msg : String)
  | vtt (msg : String)
deriving DecidableEq, Repr

/-- Values stored in a rules / settings dict (the program only ever stores
booleans, integers or strings there through the validated path). -/
inductive RuleVal where
  | b (v : Bool)
  | i (v : Int)
  | s (v : String)
deriving DecidableEq, Repr

/-- Python truthiness of a rule value. -/
def truthy : RuleVal → Bool
  | .b v => v
  | .i v => decide (v ≠ 0)
  | .s v => decide (v ≠ "")

/-! ## Facing computation (logic.py _dominant_axis_dir / _default_facing_for)

The source computes cx = (width + 1) / 2 and cy = (height + 1) / 2 in float
arithmetic, subtracts the integer coordinates, and applies int(round(..))
to each component before comparing.  Every value involved is an exact
multiple of one half, so the computation is modelled exactly with doubled
integers: the argument n below stands for the real number n / 2, and
roundHalfEven models the Python round function (banker's rounding:
round half to even) on such values. -/

def roundHalfEven (n : Int) : Int :=
  if n % 2 = 0 then n / 2
  else
    let k := Int.fdiv n 2
    if k % 2 = 0 then k else k + 1

/-- logic.py _dominant_axis_dir: ties prefer the vertical axis. -/
def _dominant_axis_dir (dx dy : Int) : Dir :=
  if |dy| ≥ |dx| then (if dy > 0 then .down else .up)
  else (if dx > 0 then .right else .left)

/-- logic.py _default_facing_for.  dx2 and dy2 are twice the float values
dx and dy of the source. -/
def _default_facing_for (x y width height : Int) : Dir :=
  let dx2 := width + 1 - 2 * x
  let dy2 := height + 1 - 2 * y
  _dominant_axis_dir (roundHalfEven dx2) (roundHalfEven dy2)

/-! ## Entity and Match data model -/

/-- logic.py Entity.  The fields team, status and extras are carried by the
source but never read or written by any operation a claim mentions; they are
omitted here.  __post_init__ guarantees max_hp is populated (from hp when
absent) and facing is one of the four directions, which the Dir type and
the mkEntity constructor below enforce.  bound models _match being not None.
-/
structure Entity where
  name : String
  hp : Int
  x : Int
  y : Int
  id : String
  max_hp : Int
  initiative : Option Int := none
  facing : Dir := .up
  bound : Bool := false
deriving DecidableEq, Repr

/-- Entity(id=eid, name=name, hp=hp, x=x, y=y) as the command layer builds
it, with __post_init__ applied (max_hp defaults to hp). -/
def mkEntity (eid name : String) (hp x y : Int) : Entity :=
  { name := name, hp := hp, x := x, y := y, id := eid, max_hp := hp }

/-- Entity.is_alive. -/
def isAlive (e : Entity) : Bool := decide (0 < e.hp)

/-- logic.py Match. -/
structure Match where
  id : String
  name : String
  grid_width : Int
  grid_height : Int
  system_name : String
  entities : List (String × Entity) := []
  turn_order : List String := []
  active_index : Nat := 0
  turn_number : Int := 1
  rules : List (String × RuleVal) := []
deriving DecidableEq, Repr

/-- Values of the entities dict, in insertion order. -/
def vals (m : Match) : List Entity := m.entities.map Prod.snd

/-- dict get on the rules mapping. -/
def rget (rules : List (String × RuleVal)) (k : String) : Option RuleVal :=
  (rules.find? (fun p => p.1 == k)).map Prod.snd

/-- dict get on the entities mapping. -/
def getEnt (m : Match) (k : String) : Option Entity :=
  (m.entities.find? (fun p => p.1 == k)).map Prod.snd

/-- Replace the value stored under key k (in place, preserving order). -/
def updateEnt (m : Match) (k : String) (f : Entity → Entity) : Match :=
  { m with entities := m.entities.map (fun p => if p.1 = k then (p.1, f p.2) else p) }

/-- Match.in_bounds. -/
def in_bounds (m : Match) (x y : Int) : Bool :=
  decide (1 ≤ x ∧ x ≤ m.grid_width ∧ 1 ≤ y ∧ y ≤ m.grid_height)

/-- Match.is_occupied.  The source skips the entry whose key equals
ignore_entity_id, but only when that id is truthy (a nonempty string). -/
def is_occupied (m : Match) (x y : Int) (ignore : Option String := none) : Bool :=
  m.entities.any (fun p =>
    let skip : Bool :=
      match ignore with
      | some s => decide (s ≠ "") && (p.1 == s)
      | none => false
    !skip && decide (p.2.x = x) && decide (p.2.y = y) && isAlive p.2)

/-- Match._spawn_facing. -/
def _spawn_facing (m : Match) (x y : Int) : Dir :=
  if (match rget m.rules "spawn_face_toward_center" with
      | some v => truthy v
      | none => true) then
    _default_facing_for x y m.grid_width m.grid_height
  else
    match rget m.rules "spawn_default_facing" with
    | some (.s d) => (strToDir d).getD .up
    | some _ => .up
    | none => .up

/-- Entity.bind: set the back-reference; when the entity is on the board,
recompute its facing from the spawn-facing rule (exceptions inside
_spawn_facing are swallowed by the source, and the modelled computation is
total, so no error case appears). -/
def bindE (m : Match) (e : Entity) : Entity :=
  let e2 := { e with bound := true }
  if in_bounds m e.x e.y then { e2 with facing := _spawn_facing m e.x e.y } else e2

/-! ## Turn order (Match._rebuild_turn_order, next_turn)

Python sorts with sorted(key = lambda e: (-e.initiative, e.name.lower(), e.id)).
sorted is a stable sort; insertionSort is stable for the reflexive order
entLE below, and stable sorts of the same list under the same total
preorder coincide, so the embedding is exact. -/

abbrev SortKey := Lex (Int × Lex (List Nat × List Nat))

def entKey (e : Entity) : SortKey :=
  toLex (-(e.initiative.getD 0), toLex (strKey (pyLower e.name), strKey e.id))

def entLE (e f : Entity) : Prop := entKey e ≤ entKey f

instance : DecidableRel entLE := fun e f =>
  inferInstanceAs (Decidable (entKey e ≤ entKey f))

instance : IsTotal Entity entLE := ⟨fun a b => le_total (entKey a) (entKey b)⟩

instance : IsTrans Entity entLE := ⟨fun _ _ _ h h2 => le_trans h h2⟩

/-- The filter of Match._rebuild_turn_order: initiative set and alive. -/
def aliveInit (e : Entity) : Bool := e.initiative.isSome && isAlive e

/-- The sorted id list Match._rebuild_turn_order computes. -/
def rebuildTO (m : Match) : List String :=
  (List.insertionSort entLE ((vals m).filter aliveInit)).map (fun e => e.id)

/-- The remapped active index of Match._rebuild_turn_order.  The source
remembers turn_order[active_index] when the index is in range, and after
sorting moves active_index to the position of that id when it still
qualifies; note it treats the remembered id as absent when it is falsy
(the empty string). -/
def rebuildAI (m : Match) : Nat :=
  match m.turn_order.get? m.active_index with
  | some pid => if pid ≠ "" ∧ pid ∈ rebuildTO m then (rebuildTO m).indexOf pid else 0
  | none => 0

/-- Match._rebuild_turn_order. -/
def _rebuild_turn_order (m : Match) : Match :=
  { m with turn_order := rebuildTO m, active_index := rebuildAI m }

/-- Match.current_entity_id.  The source indexes turn_order[active_index];
the default "" is never reached when active_index is in range. -/
def current_entity_id (m : Match) : Option String :=
  if m.turn_order.isEmpty then none
  else some (m.turn_order.getD m.active_index "")

/-- Match.next_turn. -/
def next_turn (m : Match) : Match × Option String :=
  if m.turn_order.isEmpty then (m, none)
  else
    let n := m.turn_order.length
    let ai := (m.active_index + 1) % n
    let m2 := { m with
      active_index := ai,
      turn_number := if ai = 0 then m.turn_number + 1 else m.turn_number }
    (m2, some (m2.turn_order.getD ai ""))

/-! ## Entity operations

Each operation mirrors the corresponding Entity method of logic.py; the
match-level wrappers mirror how the vtt_commands.py handlers invoke them
on an entity looked up by id (raising NotFound when the id is absent). -/

/-- Entity.move_to. -/
def move_to (e : Entity) (x y : Int) : Entity := { e with x := x, y := y }

/-- Entity.take_damage: hp -= max(0, amount); no floor at zero. -/
def take_damage (e : Entity) (amount : Int) : Entity :=
  { e with hp := e.hp - max 0 amount }

/-- Entity.heal: hp = min(max_hp, hp + max(0, amount)). -/
def heal (e : Entity) (amount : Int) : Entity :=
  { e with hp := min e.max_hp (e.hp + max 0 amount) }

def msgNotBound : String := "Entity is not bound to a match"

/-- The entity as mutated by Entity.spawn before the duplicate-id check:
moved to (x, y), bound (facing recomputed), initiative overwritten when
one was passed. -/
def spawnedEntity (m : Match) (e : Entity) (x y : Int) (ini : Option Int) : Entity :=
  match ini with
  | some v => { bindE m (move_to e x y) with initiative := some v }
  | none => bindE m (move_to e x y)

/-- Entity.spawn.  The mutations to the entity (position, binding with its
facing recomputation, initiative) happen before the duplicate-id check, so
a DuplicateId error leaves the match untouched but the entity mutated.
Returns (match, entity, result). -/
def spawn (m : Match) (e : Entity) (x y : Int) (initiative : Option Int := none) :
    Match × Entity × Except VErr String :=
  if e.bound then
    (m, e, .error (.vtt ("Entity \x27" ++ e.id ++ "\x27 is already in a match")))
  else if !(in_bounds m x y) then
    let gw := toString m.grid_width
    let gh := toString m.grid_height
    (m, e, .error (.outOfBounds
      ("(" ++ toString x ++ "," ++ toString y ++ ") outside " ++ gw ++ "x" ++ gh)))
  else if is_occupied m x y then
    (m, e, .error (.occupied
      ("Cell (" ++ toString x ++ "," ++ toString y ++ ") already occupied")))
  else
    if m.entities.any (fun p => p.1 == (spawnedEntity m e x y initiative).id) then
      (m, spawnedEntity m e x y initiative, .error (.duplicateId
        ("Entity id \x27" ++ (spawnedEntity m e x y initiative).id
          ++ "\x27 already exists in this match")))
    else
      (_rebuild_turn_order { m with entities :=
          m.entities ++ [((spawnedEntity m e x y initiative).id,
                          spawnedEntity m e x y initiative)] },
       spawnedEntity m e x y initiative,
       .ok (spawnedEntity m e x y initiative).id)

/-- The turn-order scrub inside Entity.remove: excise the id from
turn_order (list.remove takes the first occurrence) and remap
active_index with max(0, ..) clamping, which Nat subtraction models. -/
def scrubTurn (m : Match) (tid : String) : Match :=
  if tid ∈ m.turn_order then
    let idx := m.turn_order.indexOf tid
    let to2 := m.turn_order.erase tid
    let ai : Nat :=
      if m.active_index ≥ to2.length then to2.length - 1
      else if m.active_index > idx then m.active_index - 1
      else m.active_index
    { m with turn_order := to2, active_index := ai }
  else m

/-- Entity.remove, invoked by the ent remove command on the entity stored
under key eid (the command replies without an exception when the key is
absent; that path is modelled as a notFound failure). -/
def removeCmd (m : Match) (eid : String) : Match × Except VErr Unit :=
  match getEnt m eid with
  | none => (m, .error (.notFound ("Entity \x27" ++ eid ++ "\x27 not found.")))
  | some e =>
    if !e.bound then (m, .error (.vtt msgNotBound))
    else
      let m2 := { m with entities := m.entities.filter (fun p => !(p.1 == e.id)) }
      (_rebuild_turn_order (scrubTurn m2 e.id), .ok ())

/-- Entity.tp, on a given entity. -/
def tpE (m : Match) (e : Entity) (x y : Int) : Entity × Except VErr Unit :=
  if !e.bound then (e, .error (.vtt msgNotBound))
  else if !(in_bounds m x y) then
    let gw := toString m.grid_width
    let gh := toString m.grid_height
    (e, .error (.outOfBounds
      ("(" ++ toString x ++ "," ++ toString y ++ ") outside " ++ gw ++ "x" ++ gh)))
  else if is_occupied m x y (some e.id) then
    (e, .error (.occupied
      ("Cell (" ++ toString x ++ "," ++ toString y ++ ") already occupied")))
  else (move_to e x y, .ok ())

/-- ent tp command: look up by id, then Entity.tp. -/
def tpCmd (m : Match) (eid : String) (x y : Int) : Match × Except VErr Unit :=
  match getEnt m eid with
  | none => (m, .error (.notFound ("Entity \x27" ++ eid ++ "\x27 not found.")))
  | some e =>
    let (e2, r) := tpE m e x y
    (updateEnt m eid (fun _ => e2), r)

/-- Direction token recognition of Entity.move_dirs (lowercased aliases). -/
def dirDelta (d : String) : Option (Int × Int) :=
  let dl := pyLower d
  if dl == "up" || dl == "u" then some (0, -1)
  else if dl == "down" || dl == "d" then some (0, 1)
  else if dl == "left" || dl == "l" then some (-1, 0)
  else if dl == "right" || dl == "r" then some (1, 0)
  else none

/-- The facing dictionary {(-1,0): left, (1,0): right, (0,-1): up, (0,1): down}
of Entity.move_dirs, total on the four deltas dirDelta produces. -/
def deltaDir (dx dy : Int) : Dir :=
  if dx = -1 then .left
  else if dx = 1 then .right
  else if dy = -1 then .up
  else .down

/-- Outcome of the stepping loop of Entity.move_dirs: the local x, y and
the facing committed to the entity so far (facing is mutated in place on
each successful step, even when a later check fails). -/
inductive StepOut where
  | ok (x y : Int) (fc : Dir)
  | err (e : VErr) (fc : Dir)
deriving DecidableEq, Repr

/-- The inner for-loop: one direction repeated a number of times.  Bounds
are checked before each step; facing is set after the bounds check. -/
def runSteps (m : Match) (dx dy : Int) : Nat → Int → Int → Dir → StepOut
  | 0, x, y, fc => .ok x y fc
  | n + 1, x, y, fc =>
    let nx := x + dx
    let ny := y + dy
    if !(in_bounds m nx ny) then
      let gw := toString m.grid_width
      let gh := toString m.grid_height
      .err (.outOfBounds
        ("(" ++ toString nx ++ "," ++ toString ny ++ ") outside " ++ gw ++ "x" ++ gh)) fc
    else runSteps m dx dy n nx ny (deltaDir dx dy)

/-- The outer for-loop of Entity.move_dirs over (direction, count) pairs;
count is clamped below by 1 (range(max(1, int(count)))). -/
def runMoves (m : Match) : List (String × Int) → Int → Int → Dir → StepOut
  | [], x, y, fc => .ok x y fc
  | (d, cnt) :: rest, x, y, fc =>
    match dirDelta d with
    | none => .err (.vtt ("Unknown direction \x27" ++ d ++ "\x27")) fc
    | some (dx, dy) =>
      match runSteps m dx dy (max 1 cnt).toNat x y fc with
      | .ok x2 y2 fc2 => runMoves m rest x2 y2 fc2
      | .err e fc2 => .err e fc2

/-- Entity.move_dirs on a given entity: walk the steps on local variables,
then check only the final cell for occupancy (ignoring self); commit the
position only on success, but the facing mutations always persist. -/
def move_dirsE (m : Match) (e : Entity) (moves : List (String × Int)) :
    Entity × Except VErr Unit :=
  if !e.bound then (e, .error (.vtt msgNotBound))
  else
    match runMoves m moves e.x e.y e.facing with
    | .err er fc => ({ e with facing := fc }, .error er)
    | .ok x y fc =>
      if is_occupied m x y (some e.id) then
        ({ e with facing := fc }, .error (.occupied
          ("Cell (" ++ toString x ++ "," ++ toString y ++ ") already occupied")))
      else ({ e with x := x, y := y, facing := fc }, .ok ())

/-- ent move command: look up by id, then Entity.move_dirs. -/
def moveCmd (m : Match) (eid : String) (moves : List (String × Int)) :
    Match × Except VErr Unit :=
  match getEnt m eid with
  | none => (m, .error (.notFound ("Entity \x27" ++ eid ++ "\x27 not found.")))
  | some e =>
    let (e2, r) := move_dirsE m e moves
    (updateEnt m eid (fun _ => e2), r)

/-- Entity.damage_entity via the ent hp command: apply the damage, then
rebuild the turn order only when the entity crossed from alive to dead
(_require_match raises after the hp mutation when unbound). -/
def damageCmd (m : Match) (eid : String) (amount : Int) : Match × Except VErr Unit :=
  match getEnt m eid with
  | none => (m, .error (.notFound ("Entity \x27" ++ eid ++ "\x27 not found.")))
  | some e =>
    let was := isAlive e
    let e2 := take_damage e amount
    let m2 := updateEnt m eid (fun _ => e2)
    if was && !(isAlive e2) then
      if e2.bound then (_rebuild_turn_order m2, .ok ())
      else (m2, .error (.vtt msgNotBound))
    else (m2, .ok ())

/-- Entity.heal_entity via the ent hp command: apply the heal, then rebuild
the turn order only when the entity crossed from dead to alive. -/
def healCmd (m : Match) (eid : String) (amount : Int) : Match × Except VErr Unit :=
  match getEnt m eid with
  | none => (m, .error (.notFound ("Entity \x27" ++ eid ++ "\x27 not found.")))
  | some e =>
    let was := isAlive e
    let e2 := heal e amount
    let m2 := updateEnt m eid (fun _ => e2)
    if !was && isAlive e2 then
      if e2.bound then (_rebuild_turn_order m2, .ok ())
      else (m2, .error (.vtt msgNotBound))
    else (m2, .ok ())

/-- Entity.set_initiative_entity via the ent init command: always rebuilds. -/
def setInitiativeCmd (m : Match) (eid : String) (v : Int) : Match × Except VErr Unit :=
  match getEnt m eid with
  | none => (m, .error (.notFound ("Entity \x27" ++ eid ++ "\x27 not found.")))
  | some e =>
    let e2 := { e with initiative := some v }
    let m2 := updateEnt m eid (fun _ => e2)
    if e2.bound then (_rebuild_turn_order m2, .ok ())
    else (m2, .error (.vtt msgNotBound))

/-! ## The operations of claim C1, as one datatype -/

def exceptOk {ε α : Type} : Except ε α → Bool
  | .ok _ => true
  | .error _ => false

/-- The successful operations claim C1 quantifies over, heal apart (a
successful heal can revive an entity under a living one, see the C1
counterexample).  Each constructor applies the corresponding command-layer
operation. -/
inductive Op where
  | spawnOp (e : Entity) (x y : Int) (initiative : Option Int)
  | tpOp (eid : String) (x y : Int)
  | moveOp (eid : String) (moves : List (String × Int))
  | damageOp (eid : String) (amount : Int)
  | removeOp (eid : String)
  | initOp (eid : String) (value : Int)
  | nextOp

/-- Apply an operation, returning the new match and a success flag. -/
def applyOp (m : Match) : Op → Match × Bool
  | .spawnOp e x y i =>
    let r := spawn m e x y i
    (r.1, exceptOk r.2.2)
  | .tpOp eid x y =>
    let r := tpCmd m eid x y
    (r.1, exceptOk r.2)
  | .moveOp eid moves =>
    let r := moveCmd m eid moves
    (r.1, exceptOk r.2)
  | .damageOp eid amount =>
    let r := damageCmd m eid amount
    (r.1, exceptOk r.2)
  | .removeOp eid =>
    let r := removeCmd m eid
    (r.1, exceptOk r.2)
  | .initOp eid v =>
    let r := setInitiativeCmd m eid v
    (r.1, exceptOk r.2)
  | .nextOp => ((next_turn m).1, true)

/-! ## The occupancy invariant and well-formedness -/

/-- Two entities do not overlap when both are alive. -/
def PosOk (e f : Entity) : Prop :=
  0 < e.hp → 0 < f.hp → (e.x, e.y) ≠ (f.x, f.y)

/-- Occupancy exclusivity: pairwise over the entity table. -/
def OccInv (m : Match) : Prop :=
  m.entities.Pairwise (fun p q => PosOk p.2 q.2)

/-- Well-formedness every reachable Python state enjoys: dict keys are
unique and each stored entity carries its key as its id. -/
def WfMatch (m : Match) : Prop :=
  (m.entities.map Prod.fst).Nodup ∧ ∀ p ∈ m.entities, p.2.id = p.1

/-! ## Rule-value coercion (logic.py _parse_bool / _coerce_rule_value)

RULE_SCHEMA is a module-level dict in the source; the coercion function is
embedded with the schema as an explicit parameter (so the integer branch,
which the concrete schema never reaches, can still be reasoned about), and
_coerce_rule_value instantiates it with the concrete schema, exactly as
the source reads the global. -/

/-- A schema entry: type bool, int, or enum with its allowed set.  Python
stores the enum choices as a set; the model keeps the literal element
order, and every use (membership, sorted output) is order-insensitive. -/
inductive RType where
  | bool
  | int
  | enum (choices : List String)
deriving DecidableEq, Repr

/-- ALLOWED_DIRECTIONS of logic.py. -/
def ALLOWED_DIRECTIONS : List String := ["up", "down", "left", "right"]

/-- RULE_SCHEMA of logic.py. -/
def RULE_SCHEMA : List (String × RType) :=
  [("spawn_face_toward_center", .bool),
   ("spawn_default_facing", .enum ALLOWED_DIRECTIONS)]

/-- logic.py _parse_bool: strip, lowercase, accept exactly true/t/false/f. -/
def _parse_bool (token : String) : Except String Bool :=
  let t := pyLower (pyTrim token)
  if t == "true" || t == "t" then .ok true
  else if t == "false" || t == "f" then .ok false
  else .error "Expected a boolean: use \x27true\x27 or \x27false\x27."

/-- Model of int(raw, 10): optional surrounding whitespace, optional sign,
then decimal digits with optional single underscores between digits. -/
def pyDigitsTail : List Char → Bool
  | [] => true
  | ['_'] => false
  | '_' :: d :: ds => d.isDigit && pyDigitsTail ds
  | c :: cs => c.isDigit && pyDigitsTail cs

def pyUnsigned : List Char → Bool
  | [] => false
  | c :: cs => c.isDigit && pyDigitsTail cs

def digitsVal (l : List Char) : Nat :=
  l.foldl (fun a c => a * 10 + (c.toNat - 48)) 0

def pyParseInt (s : String) : Option Int :=
  let l := trimChars s.data
  let sb : Int × List Char :=
    match l with
    | '+' :: r => (1, r)
    | '-' :: r => (-1, r)
    | r => (1, r)
  if pyUnsigned sb.2 then
    some (sb.1 * (digitsVal (sb.2.filter (fun c => !(c == '_'))) : Int))
  else none

/-- logic.py _coerce_rule_value, generic over the schema table it reads. -/
def coerceWith (schema : List (String × RType)) (key raw_value : String) :
    Except String RuleVal :=
  match (schema.find? (fun p => p.1 == key)).map Prod.snd with
  | none =>
    .error ("Unknown setting \x27" ++ key ++ "\x27. Allowed: "
      ++ joinComma (sortedStrs (schema.map Prod.fst)))
  | some .bool =>
    match _parse_bool raw_value with
    | .ok v => .ok (.b v)
    | .error e => .error e
  | some .int =>
    match pyParseInt raw_value with
    | some n => .ok (.i n)
    | none => .error ("Setting \x27" ++ key ++ "\x27 expects an integer.")
  | some (.enum choices) =>
    let v := pyLower (pyTrim raw_value)
    if choices.contains v then .ok (.s v)
    else .error ("Setting \x27" ++ key ++ "\x27 must be one of: "
      ++ joinComma (sortedStrs choices))

/-- logic.py _coerce_rule_value against the module-level RULE_SCHEMA. -/
def _coerce_rule_value (key raw_value : String) : Except String RuleVal :=
  coerceWith RULE_SCHEMA key raw_value

/-! ## Command dispatch (vtt_commands.py CommandRegistry.run)

Handlers are arbitrary async functions over an arbitrary manager state; a
handler invocation is modelled by its observable outcome: the state it
leaves behind, the messages it sent through ctx.send before returning or
raising, and the exception it raised, if any (VTTError subclasses are
distinguished from every other exception).  run wraps the handler call in
try/except; the RunOut.exc component records what escapes run itself. -/

inductive PyErr where
  | vtt (msg : String)
  | other (msg : String)
deriving DecidableEq, Repr

structure HandlerOut (σ : Type) where
  st : σ
  sent : List String
  exc : Option PyErr

/-- A handler: takes the argument list, the channel key of the reply
context, and the manager state. -/
def Handler (σ : Type) : Type :=
  List String → String → σ → HandlerOut σ

structure RunOut (σ : Type) where
  st : σ
  sent : List String
  exc : Option PyErr

/-- CommandRegistry.run: unknown name sends an unknown-command message;
a VTTError from the handler is reported with its message; any other
exception is reported generically; nothing escapes. -/
def registryRun {σ : Type} (handlers : List (String × Handler σ))
    (name : String) (args : List String) (channel_key : String) (st : σ) :
    RunOut σ :=
  match (handlers.find? (fun p => p.1 == name)).map Prod.snd with
  | none => ⟨st, ["❓ Unknown command `" ++ name ++ "`"], none⟩
  | some h =>
    let r := h args channel_key st
    match r.exc with
    | none => ⟨r.st, r.sent, none⟩
    | some (.vtt m) => ⟨r.st, r.sent ++ ["❌ " ++ m], none⟩
    | some (.other m) => ⟨r.st, r.sent ++ ["💥 Unexpected error: " ++ m], none⟩

/-! ## JSON values

Output of json.load / input of json.dump.  Numeric values that the claims
exercise are integers, so num carries an Int. -/

inductive Json where
  | null
  | bool (b : Bool)
  | num (n : Int)
  | str (s : String)
  | arr (elems : List Json)
  | obj (fields : List (String × Json))

/-- dict get over a JSON object (none when the value is not an object or
the key is absent; object key lists model Python dicts, so the first match
is the only one). -/
def jget : Json → String → Option Json
  | .obj kvs, k => (kvs.find? (fun p => p.1 == k)).map Prod.snd
  | _, _ => none

/-- Python truthiness of a JSON value. -/
def jTruthy : Json → Bool
  | .null => false
  | .bool b => b
  | .num n => decide (n ≠ 0)
  | .str s => decide (s ≠ "")
  | .arr l => !l.isEmpty
  | .obj kvs => !kvs.isEmpty

/-! ## The to_dict cycle (claim C6)

Entity.to_dict calls dataclasses.asdict(self) and only afterwards pops the
_match key.  asdict recurses into every dataclass field, including the
_match back-reference, and from there into the match and its entities dict
again: on any bound entity the recursion never reaches a base case.  The
model makes the object graph explicit as a small heap (Python objects
referenced by identity), and asdict takes a stack-depth fuel; returning
none for every fuel is the model of the unbounded recursion that raises
RecursionError in CPython.  Only the fields on the cycle are modelled; the
scalar fields of Entity and Match terminate immediately and are
represented by the id field. -/

structure PyEntityObj where
  id : String
  matchRef : Option String

structure PyMatchObj where
  id : String
  entities : List (String × String)

structure PyHeap where
  matchObjs : List (String × PyMatchObj)
  entObjs : List (String × PyEntityObj)

def lookupA {β : Type} (l : List (String × β)) (k : String) : Option β :=
  (l.find? (fun p => p.1 == k)).map Prod.snd

/-- dataclasses.asdict on an object of the heap (inl = a Match object,
inr = an Entity object), with stack fuel. -/
def asdictNode (h : PyHeap) : Nat → (String ⊕ String) → Option Json
  | 0, _ => none
  | fuel + 1, .inl mid =>
    match lookupA h.matchObjs mid with
    | none => none
    | some mo =>
      match mo.entities.mapM
          (fun p => (asdictNode h fuel (.inr p.2)).map (fun j => (p.1, j))) with
      | none => none
      | some es => some (.obj [("id", .str mo.id), ("entities", .obj es)])
  | fuel + 1, .inr eid =>
    match lookupA h.entObjs eid with
    | none => none
    | some eo =>
      match eo.matchRef with
      | none => some (.obj [("id", .str eo.id), ("_match", .null)])
      | some mid =>
        (asdictNode h fuel (.inl mid)).map
          (fun mj => .obj [("id", .str eo.id), ("_match", mj)])

def removeKey (k : String) : Json → Json
  | .obj kvs => .obj (kvs.filter (fun p => !(p.1 == k)))
  | j => j

/-- Entity.to_dict: asdict, then pop the back-reference. -/
def entity_to_dict (h : PyHeap) (fuel : Nat) (eid : String) : Option Json :=
  (asdictNode h fuel (.inr eid)).map (removeKey "_match")

/-- Match.to_dict: serializes each entity through Entity.to_dict. -/
def match_to_dict (h : PyHeap) (fuel : Nat) (mid : String) : Option Json :=
  match lookupA h.matchObjs mid with
  | none => none
  | some mo =>
    match mo.entities.mapM
        (fun p => (entity_to_dict h fuel p.2).map (fun j => (p.1, j))) with
    | none => none
    | some es => some (.obj [("id", .str mo.id), ("entities", .obj es)])

/-! ## Loading a save file (claims C9, parts of C6)

MatchManager.load and the from_dict constructors it calls, over raw JSON.
Values Python stores without inspecting keep type Json; an operation that
would raise on a value of the wrong shape (KeyError, TypeError, .items()
on a non-dict, dict.update of a non-mapping, int() of a non-number)
returns an error instead.  Fields are assigned in the order of the source,
so a failure partway leaves exactly the fields written so far replaced. -/

/-- Entity as reconstructed by Entity.from_dict: raw JSON in every field
Python does not inspect.  status is the set(...) result, kept as a list. -/
structure LoadedEntity where
  name : Json
  hp : Json
  x : Json
  y : Json
  id : Json
  max_hp : Json
  team : Json
  status : List Json
  initiative : Json
  extras : Json
  facing : Json

/-- Match as reconstructed by Match.from_dict. -/
structure LoadedMatch where
  id : Json
  name : Json
  grid_width : Json
  grid_height : Json
  system_name : Json
  rules : Json
  entities : List (String × LoadedEntity)
  turn_order : Json
  active_index : Json
  turn_number : Int

/-- GameSystem.from_dict: name is required (KeyError otherwise), settings
defaults to an empty dict and is stored raw. -/
structure GSysObj where
  name : Json
  settings : Json

/-- MatchManager state (the six fields load replaces).  Bindings and
defaults are stored raw, as Python would store whatever the file held. -/
structure MgrState where
  «matches» : List (String × LoadedMatch)
  active_by_channel : Json
  systems : List (String × GSysObj)
  default_system_name : Json
  default_system_per_server : Json
  default_system_per_channel : Json

/-- A JSON element is hashable (usable as a set element). -/
def jHashable : Json → Bool
  | .arr _ => false
  | .obj _ => false
  | _ => true

/-- set(d.get("status", [])): absent gives the empty set; a string
iterates its characters; a list requires hashable elements; anything else
(None, a number, a dict) raises TypeError. -/
def statusFromJ : Option Json → Except String (List Json)
  | none => .ok []
  | some (.arr xs) =>
    if xs.all jHashable then .ok xs else .error "TypeError: unhashable status element"
  | some (.str s) => .ok (s.data.map (fun c => .str (String.singleton c)))
  | some _ => .error "TypeError: status is not iterable"

/-- The constructor fields of the Entity dataclass (after _match is
popped); Entity(**d) raises TypeError on any other key and on any missing
required key. -/
def entityFieldNames : List String :=
  ["name", "hp", "x", "y", "id", "max_hp", "team", "status", "initiative",
   "extras", "facing"]

def entityRequired : List String := ["name", "hp", "x", "y", "id"]

/-- Entity.from_dict on a raw JSON value. -/
def entityFromDictJ : Json → Except String LoadedEntity
  | .obj kvs0 => do
    let st ← statusFromJ (jget (.obj kvs0) "status")
    let kvs := kvs0.filter (fun p => !(p.1 == "_match"))
    let keys := kvs.map Prod.fst
    if !(keys.all (fun k => entityFieldNames.contains k)) then
      .error "TypeError: unexpected keyword argument"
    else if !(entityRequired.all (fun k => keys.contains k)) then
      .error "TypeError: missing required argument"
    else
      let look := fun (k : String) => (jget (.obj kvs) k).getD .null
      let hp := look "hp"
      -- __post_init__: max_hp falls back to hp; facing falls back to up
      let max_hp0 := (jget (.obj kvs) "max_hp").getD .null
      let max_hp := match max_hp0 with
        | .null => hp
        | v => v
      let facing0 := (jget (.obj kvs) "facing").getD (.str "up")
      let facing := match facing0 with
        | .str d => if ALLOWED_DIRECTIONS.contains d then Json.str d else .str "up"
        | _ => .str "up"
      .ok { name := look "name", hp := hp, x := look "x", y := look "y",
            id := look "id", max_hp := max_hp, team := look "team",
            status := st, initiative := look "initiative",
            extras := look "extras", facing := facing }
  | _ => .error "TypeError: entity data is not a dict"

/-- Model of int(v) on a JSON value, as applied to turn_number (strings go
through the base-10 parser; booleans are Python ints). -/
def pyIntJ : Json → Except String Int
  | .num n => .ok n
  | .bool b => .ok (if b then 1 else 0)
  | .str s =>
    match pyParseInt s with
    | some n => .ok n
    | none => .error "ValueError: invalid literal for int"
  | _ => .error "TypeError: int() argument"

/-- Match.from_dict on a raw JSON value. -/
def matchFromDictJ : Json → Except String LoadedMatch
  | .obj kvs => do
    let req := fun (k : String) =>
      match jget (.obj kvs) k with
      | some v => Except.ok v
      | none => Except.error ("KeyError: " ++ k)
    let i ← req "id"
    let nm ← req "name"
    let gw ← req "grid_width"
    let gh ← req "grid_height"
    let ents ←
      match (jget (.obj kvs) "entities").getD (.obj []) with
      | .obj ekvs =>
        ekvs.mapM (fun p => (entityFromDictJ p.2).map (fun e => (p.1, e)))
      | _ => .error "AttributeError: entities has no items"
    let tn ← pyIntJ ((jget (.obj kvs) "turn_number").getD (.num 1))
    .ok { id := i, name := nm, grid_width := gw, grid_height := gh,
          system_name := (jget (.obj kvs) "system_name").getD (.str "default"),
          rules := (jget (.obj kvs) "rules").getD (.obj []),
          entities := ents,
          turn_order := (jget (.obj kvs) "turn_order").getD (.arr []),
          active_index := (jget (.obj kvs) "active_index").getD (.num 0),
          turn_number := tn }
  | _ => .error "TypeError: match data is not a dict"

/-- GameSystem.from_dict on a raw JSON value. -/
def gsysFromDictJ : Json → Except String GSysObj
  | .obj kvs => do
    let n ←
      match jget (.obj kvs) "name" with
      | some v => Except.ok v
      | none => Except.error "KeyError: name"
    .ok { name := n, settings := (jget (.obj kvs) "settings").getD (.obj []) }
  | _ => .error "TypeError: system data is not a dict"

def DEFAULT_SYSTEM_SETTINGS_J : List (String × Json) :=
  [("spawn_face_toward_center", .bool true), ("spawn_default_facing", .str "up")]

/-- The comprehension over data.get("matches", {}).items(). -/
def matchesFromJ (data : Json) : Except String (List (String × LoadedMatch)) :=
  match (jget data "matches").getD (.obj []) with
  | .obj kvs => kvs.mapM (fun p => (matchFromDictJ p.2).map (fun mH => (p.1, mH)))
  | _ => .error "AttributeError: matches has no items"

/-- The comprehension over data.get("systems", default).items(). -/
def systemsFromJ (data : Json) : Except String (List (String × GSysObj)) :=
  match (jget data "systems").getD
      (.obj [("default", .obj [("name", .str "default"),
                               ("settings", .obj DEFAULT_SYSTEM_SETTINGS_J)])]) with
  | .obj kvs => kvs.mapM (fun p => (gsysFromDictJ p.2).map (fun s => (p.1, s)))
  | _ => .error "AttributeError: systems has no items"

/-- A JSON value usable as a number in a comparison or arithmetic
(booleans are Python ints). -/
def jAsNum : Json → Option Int
  | .num n => some n
  | .bool b => some (if b then 1 else 0)
  | _ => none

/-- Match.in_bounds evaluated on raw JSON coordinates and grid sizes, with
the short-circuit evaluation order of 1 <= x <= w and 1 <= y <= h: a
comparison on a non-number raises TypeError, but short-circuiting can skip
it. -/
def inBoundsJ (w h x y : Json) : Except String Bool := do
  let xi ←
    match jAsNum x with
    | some v => Except.ok v
    | none => Except.error "TypeError: comparison"
  if xi < 1 then return false
  let wi ←
    match jAsNum w with
    | some v => Except.ok v
    | none => Except.error "TypeError: comparison"
  if !(xi ≤ wi) then return false
  let yi ←
    match jAsNum y with
    | some v => Except.ok v
    | none => Except.error "TypeError: comparison"
  if yi < 1 then return false
  let hi ←
    match jAsNum h with
    | some v => Except.ok v
    | none => Except.error "TypeError: comparison"
  return (yi ≤ hi)

/-- Match._spawn_facing over raw JSON rules and grid sizes, returning none
where the Python code would raise (the caller swallows that). -/
def spawnFacingJ (rules : List (String × Json)) (w h : Json) (x y : Int) :
    Option String :=
  let flag :=
    match lookupA rules "spawn_face_toward_center" with
    | some v => jTruthy v
    | none => true
  if flag then
    match jAsNum w, jAsNum h with
    | some wi, some hi => some (dirToStr (_default_facing_for x y wi hi))
    | _, _ => none
  else
    match lookupA rules "spawn_default_facing" with
    | some (.str d) => some (if ALLOWED_DIRECTIONS.contains d then d else "up")
    | some _ => some "up"
    | none => some "up"

/-- Entity.bind as run by load on a freshly loaded entity: test in_bounds
(which can raise on junk coordinates), then recompute facing, swallowing
any exception from _spawn_facing. -/
def bindLE (w h : Json) (rules : List (String × Json)) (e : LoadedEntity) :
    Except String LoadedEntity := do
  let inb ← inBoundsJ w h e.x e.y
  if inb then
    -- in_bounds returned true, so x and y are numbers here
    match jAsNum e.x, jAsNum e.y with
    | some xi, some yi =>
      match spawnFacingJ rules w h xi yi with
      | some f => .ok { e with facing := .str f }
      | none => .ok e
    | _, _ => .ok e
  else .ok e

/-- dict.update semantics: existing keys are overwritten in place, new
keys are appended in order. -/
def dictUpdate (base upd : List (String × Json)) : List (String × Json) :=
  base.map (fun p => (p.1, (lookupA upd p.1).getD p.2))
    ++ upd.filter (fun q => !((base.map Prod.fst).contains q.1))

/-- The entity re-binding loop of load over one match; a failure stops the
loop, leaving the earlier entities re-bound. -/
def bindAllEnts (w h : Json) (rules : List (String × Json)) :
    List (String × LoadedEntity) →
    List (String × LoadedEntity) × Option String
  | [] => ([], none)
  | (k, e) :: rest =>
    match bindLE w h rules e with
    | .ok e2 =>
      let r := bindAllEnts w h rules rest
      ((k, e2) :: r.1, r.2)
    | .error msg => ((k, e) :: rest, some msg)

/-- One iteration of the re-binding loop of load: fall back to the default
system name when the recorded one is unknown, look the system up (KeyError
when even the fallback is unknown or not a string), refresh the rules to
defaults updated with the system settings (TypeError when the settings are
not a dict), then re-bind every entity. -/
def rebindMatch (sys : List (String × GSysObj)) (dflt : Json) (m : LoadedMatch) :
    LoadedMatch × Option String :=
  let known := fun (j : Json) =>
    match j with
    | .str s => (sys.map Prod.fst).contains s
    | _ => false
  let m1 := if known m.system_name then m else { m with system_name := dflt }
  match m1.system_name with
  | .str s =>
    match lookupA sys s with
    | some gs =>
      match gs.settings with
      | .obj skvs =>
        let merged := dictUpdate DEFAULT_SYSTEM_SETTINGS_J skvs
        let m2 := { m1 with rules := .obj merged }
        let r := bindAllEnts m2.grid_width m2.grid_height merged m2.entities
        ({ m2 with entities := r.1 }, r.2)
      | _ => (m1, some "TypeError: settings is not a mapping")
    | none => (m1, some ("KeyError: " ++ s))
  | _ => (m1, some "KeyError: system name")

/-- The re-binding loop over all matches; a failure stops the loop with the
earlier matches already refreshed in place. -/
def rebindMatches (sys : List (String × GSysObj)) (dflt : Json) :
    List (String × LoadedMatch) →
    List (String × LoadedMatch) × Option String
  | [] => ([], none)
  | (k, m) :: rest =>
    let r := rebindMatch sys dflt m
    match r.2 with
    | none =>
      let rr := rebindMatches sys dflt rest
      ((k, r.1) :: rr.1, rr.2)
    | some e => ((k, r.1) :: rest, some e)

/-- What reading and json.load-ing the file produced: the file was absent,
unreadable, undecodable, or a JSON document. -/
inductive FileRead where
  | notFound
  | ioErr (msg : String)
  | badJson (msg : String)
  | ok (data : Json)

/-- MatchManager.load.  The first try/except turns read and decode
failures into VTTError messages without touching any state; the second
try/except assigns the six state fields in source order and re-binds, so
a failure inside it leaves exactly the fields assigned so far replaced.
The returned Option String is the VTTError message, none on success. -/
def loadM (mgr : MgrState) (path : String) (fr : FileRead) :
    MgrState × Option String :=
  let invalid := fun (e : String) =>
    "Invalid save file format in \x27" ++ path ++ "\x27: " ++ e
  match fr with
  | .notFound => (mgr, some ("File not found: \x27" ++ path ++ "\x27"))
  | .ioErr e => (mgr, some ("Failed to load from \x27" ++ path ++ "\x27: " ++ e))
  | .badJson e => (mgr, some ("Failed to load from \x27" ++ path ++ "\x27: " ++ e))
  | .ok data =>
    match matchesFromJ data with
    | .error e => (mgr, some (invalid e))
    | .ok ms =>
      let mgr1 := { mgr with «matches» := ms }
      let mgr2 := { mgr1 with
        active_by_channel := (jget data "active_by_channel").getD (.obj []) }
      match systemsFromJ data with
      | .error e => (mgr2, some (invalid e))
      | .ok sys =>
        let mgr3 := { mgr2 with systems := sys }
        let mgr4 := { mgr3 with
          default_system_name := (jget data "default_system_name").getD (.str "default"),
          default_system_per_server :=
            (jget data "default_system_per_server").getD (.obj []),
          default_system_per_channel :=
            (jget data "default_system_per_channel").getD (.obj []) }
        let r := rebindMatches sys mgr4.default_system_name ms
        let mgr5 := { mgr4 with «matches» := r.1 }
        match r.2 with
        | some e => (mgr5, some (invalid e))
        | none => (mgr5, none)

/-! # Theorems for the claims -/

/-- Claim C4 (confirmed): CommandRegistry.run never lets a handler failure
propagate (the exc component of the run outcome is always none); an
unknown command name produces a user-visible unknown-command message
rather than an error; a VTTError raised by the handler has its message
sent to the caller; any other exception is caught and reported
generically. -/
theorem C4_dispatch_totality {σ : Type} (handlers : List (String × Handler σ))
    (name : String) (args : List String) (ck : String) (st : σ) :
    (registryRun handlers name args ck st).exc = none
    ∧ (handlers.find? (fun p => p.1 == name) = none →
        registryRun handlers name args ck st
          = ⟨st, ["❓ Unknown command `" ++ name ++ "`"], none⟩)
    ∧ (∀ h, (handlers.find? (fun p => p.1 == name)).map Prod.snd = some h →
        (∀ em, (h args ck st).exc = some (.vtt em) →
          (registryRun handlers name args ck st).sent
            = (h args ck st).sent ++ ["❌ " ++ em])
        ∧ (∀ em, (h args ck st).exc = some (.other em) →
          (registryRun handlers name args ck st).sent
            = (h args ck st).sent ++ ["💥 Unexpected error: " ++ em])
        ∧ ((h args ck st).exc = none →
          (registryRun handlers name args ck st).sent = (h args ck st).sent
          ∧ (registryRun handlers name args ck st).st = (h args ck st).st)) := by
  refine ⟨?_, ?_, ?_⟩
  · unfold registryRun
    rcases hf : (handlers.find? (fun p => p.1 == name)).map Prod.snd with _ | h
    · simp [hf]
    · rcases he : (h args ck st).exc with _ | pe
      · simp [hf, he]
      · cases pe <;> simp [hf, he]
  · intro hn
    unfold registryRun
    rw [hn]
    rfl
  · intro h hf
    unfold registryRun
    rw [hf]
    refine ⟨?_, ?_, ?_⟩
    · intro em he
      simp [he]
    · intro em he
      simp [he]
    · intro he
      simp [he]

def c4WitnessHandler : Handler Nat :=
  fun _ _ s => ⟨s + 1, ["working"], some (.vtt "boom")⟩

def c4WitnessReg : List (String × Handler Nat) := [("dmg", c4WitnessHandler)]

/-- Witness for C4 at a concrete registry whose handler raises a VTTError. -/
theorem C4_dispatch_totality_witness :
    (registryRun c4WitnessReg "dmg" [] "CLI" 0).exc = none
    ∧ (registryRun c4WitnessReg "dmg" [] "CLI" 0).sent = ["working", "❌ boom"] := by
  refine ⟨(C4_dispatch_totality c4WitnessReg "dmg" [] "CLI" 0).1, ?_⟩
  have h := ((C4_dispatch_totality c4WitnessReg "dmg" [] "CLI" 0).2.2
    c4WitnessHandler rfl).1 "boom" rfl
  exact h

/-- Claim C7 counterexample: spawning at (5, 4) on a 10 x 8 grid with the
face-toward-center rule yields facing up, not down as the claim states;
the exact center vector is (0.5, 0.5), a tie that the claim resolves to
the vertical axis toward the center (down), but the source rounds each
component to an integer first (banker's rounding sends 0.5 to 0), so the
dominant-axis rule sees (0, 0) and returns up. -/
theorem C7_counterexample :
    _default_facing_for 5 4 10 8 = .up ∧ ¬ _default_facing_for 5 4 10 8 = .down := by
  decide

/-- Claim C7 (amended): spawn-time facing is the cardinal direction along
the axis with the larger absolute component of the componentwise rounded
(half-to-even) vector from the spawn cell to the grid center, ties after
rounding resolving to the vertical axis; when the width and height are
odd the center offsets are integers, rounding is the identity, and the
facing is exactly the dominant-axis rule on the true center vector. -/
theorem C7_amended_facing (x y w h : Int) (hw : w % 2 = 1) (hh : h % 2 = 1) :
    _default_facing_for x y w h
      = _dominant_axis_dir ((w + 1) / 2 - x) ((h + 1) / 2 - y) := by
  show _dominant_axis_dir (roundHalfEven (w + 1 - 2 * x)) (roundHalfEven (h + 1 - 2 * y)) = _
  have h1 : roundHalfEven (w + 1 - 2 * x) = (w + 1) / 2 - x := by
    unfold roundHalfEven
    have hc : (w + 1 - 2 * x) % 2 = 0 := by omega
    rw [if_pos hc]
    omega
  have h2 : roundHalfEven (h + 1 - 2 * y) = (h + 1) / 2 - y := by
    unfold roundHalfEven
    have hc : (h + 1 - 2 * y) % 2 = 0 := by omega
    rw [if_pos hc]
    omega
  rw [h1, h2]

/-- Witness for the amended C7 on a concrete odd grid. -/
theorem C7_amended_facing_witness :
    (11 : Int) % 2 = 1 ∧ (9 : Int) % 2 = 1
    ∧ _default_facing_for 2 2 11 9
        = _dominant_axis_dir ((11 + 1) / 2 - 2) ((9 + 1) / 2 - 2) :=
  ⟨by decide, by decide, C7_amended_facing 2 2 11 9 (by decide) (by decide)⟩

/-- Claim C8 (confirmed): rule-value coercion rejects unknown keys with an
error listing the allowed keys; a boolean rule accepts exactly the
case-insensitive (stripped) tokens true / t / false / f; an integer rule
accepts exactly base-10 integer literals; an enum rule does a
case-insensitive membership test and stores the canonical lower-case
value; in particular setting spawn_default_facing to sideways fails
listing the allowed values while LEFT succeeds and is stored as left. -/
theorem C8_rule_coercion :
    (∀ schema key raw, (schema.find? (fun p => p.1 == key)) = none →
      coerceWith schema key raw
        = .error ("Unknown setting \x27" ++ key
            ++ "\x27. Allowed: " ++ joinComma (sortedStrs (schema.map Prod.fst))))
    ∧ (∀ schema key raw, (schema.find? (fun p => p.1 == key)).map Prod.snd
          = some RType.bool →
        (coerceWith schema key raw = .ok (.b true)
          ↔ pyLower (pyTrim raw) = "true" ∨ pyLower (pyTrim raw) = "t")
        ∧ (coerceWith schema key raw = .ok (.b false)
          ↔ pyLower (pyTrim raw) = "false" ∨ pyLower (pyTrim raw) = "f"))
    ∧ (∀ schema key raw, (schema.find? (fun p => p.1 == key)).map Prod.snd
          = some RType.int →
        ((∃ n, coerceWith schema key raw = .ok (.i n))
          ↔ (pyParseInt raw).isSome = true))
    ∧ (∀ schema key raw cs, (schema.find? (fun p => p.1 == key)).map Prod.snd
          = some (RType.enum cs) →
        (pyLower (pyTrim raw) ∈ cs →
          coerceWith schema key raw = .ok (.s (pyLower (pyTrim raw))))
        ∧ (pyLower (pyTrim raw) ∉ cs →
          coerceWith schema key raw
            = .error ("Setting \x27" ++ key ++ "\x27 must be one of: "
                ++ joinComma (sortedStrs cs))))
    ∧ _coerce_rule_value "spawn_default_facing" "sideways"
        = .error "Setting \x27spawn_default_facing\x27 must be one of: down, left, right, up"
    ∧ _coerce_rule_value "spawn_default_facing" "LEFT" = .ok (.s "left") := by
  refine ⟨?_, ?_, ?_, ?_, ?_, ?_⟩
  · intro schema key raw hn
    unfold coerceWith
    rw [hn]
    rfl
  · intro schema key raw hf
    unfold coerceWith
    rw [hf]
    unfold _parse_bool
    by_cases h1 : pyLower (pyTrim raw) = "true" <;>
      by_cases h2 : pyLower (pyTrim raw) = "t" <;>
      by_cases h3 : pyLower (pyTrim raw) = "false" <;>
      by_cases h4 : pyLower (pyTrim raw) = "f" <;>
      simp_all
  · intro schema key raw hf
    unfold coerceWith
    rw [hf]
    rcases hp : pyParseInt raw with _ | n <;> simp [hp]
  · intro schema key raw cs hf
    unfold coerceWith
    rw [hf]
    constructor
    · intro hmem
      simp [hmem]
    · intro hmem
      simp [hmem]
  · rfl
  · rfl

/-- Witness for C8 at a concrete unknown key. -/
theorem C8_rule_coercion_witness :
    coerceWith RULE_SCHEMA "friendlyfire" "true"
      = .error ("Unknown setting \x27friendlyfire\x27. Allowed: "
          ++ joinComma (sortedStrs (RULE_SCHEMA.map Prod.fst))) :=
  C8_rule_coercion.1 RULE_SCHEMA "friendlyfire" "true" rfl

/-- On an in-bounds target cell, the entity spawn mutates has its
coordinates set, is bound with recomputed facing, and takes the passed
initiative when there is one. -/
theorem spawnedEntity_eq (m : Match) (e : Entity) (x y : Int) (ini : Option Int)
    (hin : in_bounds m x y = true) :
    spawnedEntity m e x y ini
      = { e with x := x, y := y, bound := true,
                 facing := _spawn_facing m x y,
                 initiative := ini.or e.initiative } := by
  cases ini <;> simp [spawnedEntity, bindE, move_to, hin, Option.or]

/-- Claim C10 (confirmed): spawning an unbound entity whose id already
exists in the match, at an in-bounds unoccupied cell, raises DuplicateId
and leaves the match (entity table and turn order) unchanged, but the
spawning entity has already been mutated: its coordinates are set, its
back-reference is bound, its facing is recomputed from the spawn-facing
rule (and its initiative is overwritten when one was passed). -/
theorem C10_duplicate_spawn (m : Match) (e : Entity) (x y : Int)
    (ini : Option Int)
    (hb : e.bound = false) (hin : in_bounds m x y = true)
    (hocc : is_occupied m x y = false)
    (hdup : m.entities.any (fun p => p.1 == e.id) = true) :
    spawn m e x y ini =
      (m,
       { e with x := x, y := y, bound := true,
                facing := _spawn_facing m x y,
                initiative := ini.or e.initiative },
       .error (.duplicateId
         ("Entity id \x27" ++ e.id ++ "\x27 already exists in this match"))) := by
  have hse := spawnedEntity_eq m e x y ini hin
  have hid : (spawnedEntity m e x y ini).id = e.id := by rw [hse]
  simp only [spawn, hb, Bool.false_eq_true, if_false, hin, Bool.not_true,
    hocc, Bool.not_false, if_true, hid, hdup, hse]

def c10Match : Match :=
  { id := "m"
    name := "M"
    grid_width := 4
    grid_height := 4
    system_name := "default"
    entities := [("a", { name := "Old", hp := 3, x := 1, y := 1, id := "a",
                         max_hp := 3, bound := true })] }

def c10Entity : Entity := mkEntity "a" "New" 5 0 0

/-- Witness for C10 at a concrete duplicate-id spawn. -/
theorem C10_duplicate_spawn_witness :
    c10Entity.bound = false ∧ in_bounds c10Match 2 2 = true
    ∧ is_occupied c10Match 2 2 = false
    ∧ c10Match.entities.any (fun p => p.1 == c10Entity.id) = true
    ∧ spawn c10Match c10Entity 2 2 (some 7) =
      (c10Match,
       { c10Entity with x := 2, y := 2, bound := true,
                        facing := _spawn_facing c10Match 2 2,
                        initiative := (some 7).or c10Entity.initiative },
       .error (.duplicateId "Entity id \x27a\x27 already exists in this match")) :=
  ⟨rfl, rfl, rfl, rfl,
    C10_duplicate_spawn c10Match c10Entity 2 2 (some 7) rfl rfl rfl rfl⟩

def c6Heap : PyHeap :=
  { matchObjs := [("m", { id := "m", entities := [("a", "a")] })],
    entObjs := [("a", { id := "a", matchRef := some "m" })] }

/-- Claim C6 (code bug): on any match that contains a bound entity,
Match.to_dict cannot produce a dictionary at all: Entity.to_dict calls
dataclasses.asdict before popping the _match back-reference, and asdict
recurses through _match into the match and its entities again without a
base case, so no amount of stack (fuel) suffices — the modelled
serialization returns none for every fuel, corresponding to the
RecursionError the Python code raises, and the claimed round trip never
starts. -/
theorem C6_to_dict_diverges (fuel : Nat) :
    match_to_dict c6Heap fuel "m" = none
    ∧ entity_to_dict c6Heap fuel "a" = none := by
  have key : ∀ n : Nat, asdictNode c6Heap n (.inr "a") = none
      ∧ asdictNode c6Heap n (.inl "m") = none := by
    intro n
    induction n with
    | zero => exact ⟨rfl, rfl⟩
    | succ k ih =>
      constructor
      · show (asdictNode c6Heap k (.inl "m")).map
          (fun mj => Json.obj [("id", .str "a"), ("_match", mj)]) = none
        rw [ih.2]
        rfl
      · have h1 := ih.1
        show (match ((asdictNode c6Heap k (.inr "a")).map
              (fun j => (("a" : String), j))).bind (fun x =>
                (List.mapM.loop (fun (p : String × String) =>
                  (asdictNode c6Heap k (.inr p.2)).map (fun j => (p.1, j))) [] [x])) with
          | none => (none : Option Json)
          | some es => some (.obj [("id", .str "m"), ("entities", .obj es)])) = none
        rw [h1]
        rfl
  constructor
  · show (match (entity_to_dict c6Heap fuel "a").map
        (fun j => (("a" : String), j)) |>.bind (fun x =>
          List.mapM.loop (fun (p : String × String) =>
            (entity_to_dict c6Heap fuel p.2).map (fun j => (p.1, j))) [] [x]) with
      | none => (none : Option Json)
      | some es => some (.obj [("id", .str "m"), ("entities", .obj es)])) = none
    have h2 : entity_to_dict c6Heap fuel "a" = none := by
      unfold entity_to_dict
      rw [(key fuel).1]
      rfl
    rw [h2]
    rfl
  · unfold entity_to_dict
    rw [(key fuel).1]
    rfl

/-! ## Iterated next_turn (claim C3) -/

def iterNext : Nat → Match → Match
  | 0, m => m
  | k + 1, m => iterNext k (next_turn m).1

theorem next_turn_fields (m : Match) (hne : m.turn_order ≠ []) :
    (next_turn m).1.turn_order = m.turn_order
    ∧ (next_turn m).1.entities = m.entities
    ∧ (next_turn m).1.active_index = (m.active_index + 1) % m.turn_order.length
    ∧ (next_turn m).1.turn_number
        = (if (m.active_index + 1) % m.turn_order.length = 0
           then m.turn_number + 1 else m.turn_number) := by
  have hE : m.turn_order.isEmpty = false := by
    simpa [List.isEmpty_iff] using hne
  unfold next_turn
  rw [hE]
  exact ⟨rfl, rfl, rfl, rfl⟩

theorem iterNext_spec (k : Nat) :
    ∀ m : Match, m.turn_order ≠ [] → m.active_index < m.turn_order.length →
      (iterNext k m).turn_order = m.turn_order
      ∧ (iterNext k m).entities = m.entities
      ∧ (iterNext k m).active_index = (m.active_index + k) % m.turn_order.length
      ∧ (iterNext k m).turn_number
          = m.turn_number + ((m.active_index + k) / m.turn_order.length : Nat) := by
  induction k with
  | zero =>
    intro m hne hai
    refine ⟨rfl, rfl, ?_, ?_⟩
    · show m.active_index = (m.active_index + 0) % m.turn_order.length
      rw [Nat.add_zero, Nat.mod_eq_of_lt hai]
    · show m.turn_number
        = m.turn_number + ((m.active_index + 0) / m.turn_order.length : Nat)
      rw [Nat.add_zero, Nat.div_eq_of_lt hai]
      simp
  | succ k ih =>
    intro m hne hai
    have hn : 0 < m.turn_order.length := List.length_pos.mpr hne
    obtain ⟨h1, h2, h3, h4⟩ := next_turn_fields m hne
    have hne2 : (next_turn m).1.turn_order ≠ [] := by rw [h1]; exact hne
    have hai2 : (next_turn m).1.active_index < (next_turn m).1.turn_order.length := by
      rw [h1, h3]; exact Nat.mod_lt _ hn
    obtain ⟨g1, g2, g3, g4⟩ := ih (next_turn m).1 hne2 hai2
    rw [h1] at g1 g3 g4
    have hstep : iterNext (k + 1) m = iterNext k (next_turn m).1 := rfl
    rw [hstep]
    refine ⟨g1, by rw [g2, h2], ?_, ?_⟩
    · rw [g3, h3, Nat.mod_add_mod]
      have harith : m.active_index + 1 + k = m.active_index + (k + 1) := by omega
      rw [harith]
    · rw [g4, h3, h4]
      by_cases hw : (m.active_index + 1) % m.turn_order.length = 0
      · have hdvd : m.turn_order.length ∣ m.active_index + 1 :=
          Nat.dvd_of_mod_eq_zero hw
        have hle : m.turn_order.length ≤ m.active_index + 1 :=
          Nat.le_of_dvd (by omega) hdvd
        have heq : m.active_index + 1 = m.turn_order.length := by omega
        have hdiv : (m.active_index + (k + 1)) / m.turn_order.length
            = k / m.turn_order.length + 1 := by
          rw [show m.active_index + (k + 1) = k + m.turn_order.length by omega,
            Nat.add_div_right _ hn]
        rw [if_pos hw, hw, hdiv]
        push_cast
        ring
      · have hlt : m.active_index + 1 < m.turn_order.length := by
          rcases Nat.lt_or_ge (m.active_index + 1) m.turn_order.length with h | h
          · exact h
          · exfalso
            have : m.active_index + 1 = m.turn_order.length := by omega
            rw [this, Nat.mod_self] at hw
            exact hw rfl
        rw [if_neg hw, Nat.mod_eq_of_lt hlt]
        have harith : m.active_index + 1 + k = m.active_index + (k + 1) := by omega
        rw [harith]

/-- Claim C3 (confirmed): with an empty turn order, next_turn is a no-op
returning nothing; with a non-empty turn order of length n and a valid
active index, n successive next_turn calls restore the turn order, entity
table, active index and current entity, and increment turn_number by
exactly one. -/
theorem C3_full_cycle (m : Match) :
    (m.turn_order = [] → next_turn m = (m, none))
    ∧ (m.turn_order ≠ [] → m.active_index < m.turn_order.length →
        (iterNext m.turn_order.length m).turn_order = m.turn_order
        ∧ (iterNext m.turn_order.length m).entities = m.entities
        ∧ (iterNext m.turn_order.length m).active_index = m.active_index
        ∧ (iterNext m.turn_order.length m).turn_number = m.turn_number + 1
        ∧ current_entity_id (iterNext m.turn_order.length m)
            = current_entity_id m) := by
  constructor
  · intro h
    unfold next_turn
    rw [h]
    rfl
  · intro hne hai
    have hn : 0 < m.turn_order.length := List.length_pos.mpr hne
    obtain ⟨g1, g2, g3, g4⟩ := iterNext_spec m.turn_order.length m hne hai
    have hA : (m.active_index + m.turn_order.length) % m.turn_order.length
        = m.active_index := by
      rw [Nat.add_mod_right, Nat.mod_eq_of_lt hai]
    have hB : (m.active_index + m.turn_order.length) / m.turn_order.length = 1 := by
      rw [Nat.add_div_right _ hn, Nat.div_eq_of_lt hai]
    refine ⟨g1, g2, ?_, ?_, ?_⟩
    · rw [g3, hA]
    · rw [g4, hB]
      push_cast
      ring
    · unfold current_entity_id
      rw [g1, g3, hA]

def c3wMatch : Match :=
  { id := "w"
    name := "W"
    grid_width := 3
    grid_height := 3
    system_name := "default"
    entities := [("a", { name := "A", hp := 3, x := 1, y := 1, id := "a",
                         max_hp := 3, initiative := some 9, bound := true }),
                 ("b", { name := "B", hp := 3, x := 2, y := 1, id := "b",
                         max_hp := 3, initiative := some 4, bound := true })]
    turn_order := ["a", "b"]
    active_index := 0 }

/-- Witness for C3 on a concrete two-entity match. -/
theorem C3_full_cycle_witness :
    c3wMatch.turn_order ≠ [] ∧ c3wMatch.active_index < c3wMatch.turn_order.length
    ∧ (iterNext c3wMatch.turn_order.length c3wMatch).active_index
        = c3wMatch.active_index
    ∧ (iterNext c3wMatch.turn_order.length c3wMatch).turn_number
        = c3wMatch.turn_number + 1 :=
  ⟨by decide, by decide,
   ((C3_full_cycle c3wMatch).2 (by decide) (by decide)).2.2.1,
   ((C3_full_cycle c3wMatch).2 (by decide) (by decide)).2.2.2.1⟩

/-! ## Stepwise moves (claim C5) -/

theorem runSteps_grid_only (m m2 : Match) (hw : m2.grid_width = m.grid_width)
    (hh : m2.grid_height = m.grid_height) (dx dy : Int) :
    ∀ (n : Nat) (x y : Int) (fc : Dir),
      runSteps m dx dy n x y fc = runSteps m2 dx dy n x y fc := by
  intro n
  induction n with
  | zero => intro x y fc; rfl
  | succ k ih =>
    intro x y fc
    have hib : in_bounds m2 (x + dx) (y + dy) = in_bounds m (x + dx) (y + dy) := by
      unfold in_bounds
      rw [hw, hh]
    simp only [runSteps, hib]
    by_cases hbnd : in_bounds m (x + dx) (y + dy)
    · simp only [hbnd, Bool.not_true, Bool.false_eq_true, if_false]
      exact ih (x + dx) (y + dy) (deltaDir dx dy)
    · simp only [Bool.not_eq_true] at hbnd
      simp only [hbnd, Bool.not_false, if_true, hw, hh]

theorem runMoves_grid_only (m m2 : Match) (hw : m2.grid_width = m.grid_width)
    (hh : m2.grid_height = m.grid_height) :
    ∀ (ms : List (String × Int)) (x y : Int) (fc : Dir),
      runMoves m ms x y fc = runMoves m2 ms x y fc := by
  intro ms
  induction ms with
  | nil => intro x y fc; rfl
  | cons hd tl ih =>
    intro x y fc
    obtain ⟨d, cnt⟩ := hd
    rcases hdd : dirDelta d with _ | dxy
    · simp only [runMoves, hdd]
    · obtain ⟨dx, dy⟩ := dxy
      simp only [runMoves, hdd]
      rw [← runSteps_grid_only m m2 hw hh dx dy]
      rcases hrs : runSteps m dx dy (max 1 cnt).toNat x y fc with _ | _
      · simp only [hrs]
        exact ih _ _ _
      · simp only [hrs]

def c5Mover : Entity :=
  { name := "A", hp := 5, x := 3, y := 3, id := "a", max_hp := 5,
    facing := .up, bound := true }

def c5Blocker : Entity :=
  { name := "B", hp := 5, x := 5, y := 3, id := "b", max_hp := 5,
    facing := .up, bound := true }

def c5Match : Match :=
  { id := "m5"
    name := "M5"
    grid_width := 8
    grid_height := 8
    system_name := "default"
    entities := [("a", c5Mover), ("b", c5Blocker)] }

/-- Claim C5 counterexample: an entity at (3, 3) facing up whose two-step
move right ends on the occupied cell (5, 3) fails with Occupied and keeps
its position, but its facing has been mutated to right, so its state is
not the same as before the call. -/
theorem C5_counterexample :
    move_dirsE c5Match c5Mover [("right", 2)]
      = ({ c5Mover with facing := .right },
         .error (.occupied "Cell (5,3) already occupied"))
    ∧ ({ c5Mover with facing := .right } : Entity) ≠ c5Mover :=
  ⟨rfl, by decide⟩

/-- Claim C5 (amended): move_dirs raises OutOfBounds at the first step
that leaves the grid; only the final resting cell is checked for
occupancy, ignoring the moving entity (the stepping loop reads nothing
but the grid size, so occupancy of intermediate cells is irrelevant);
when any failure occurs (including the final Occupied) the position is
unchanged, but the facing has been updated in place to the direction of
the last successfully taken step. -/
theorem C5_amended_move (m : Match) (e : Entity) (moves : List (String × Int))
    (hb : e.bound = true) :
    (∀ er fc, runMoves m moves e.x e.y e.facing = .err er fc →
        move_dirsE m e moves = ({ e with facing := fc }, .error er))
    ∧ (∀ x y fc, runMoves m moves e.x e.y e.facing = .ok x y fc →
        (is_occupied m x y (some e.id) = true →
          move_dirsE m e moves
            = ({ e with facing := fc },
               .error (.occupied ("Cell (" ++ toString x ++ "," ++ toString y
                 ++ ") already occupied"))))
        ∧ (is_occupied m x y (some e.id) = false →
          move_dirsE m e moves
            = ({ e with x := x, y := y, facing := fc }, .ok ())))
    ∧ (∀ m2 : Match, m2.grid_width = m.grid_width →
        m2.grid_height = m.grid_height →
        ∀ ms (x y : Int) (fc : Dir), runMoves m ms x y fc = runMoves m2 ms x y fc) := by
  refine ⟨?_, ?_, ?_⟩
  · intro er fc hr
    simp only [move_dirsE, hb, Bool.not_true, Bool.false_eq_true, if_false, hr]
  · intro x y fc hr
    constructor
    · intro hocc
      simp only [move_dirsE, hb, Bool.not_true, Bool.false_eq_true, if_false, hr,
        hocc, if_true]
    · intro hocc
      simp only [move_dirsE, hb, Bool.not_true, Bool.false_eq_true, if_false, hr,
        hocc, Bool.false_eq_true]
  · intro m2 hw hh ms x y fc
    exact runMoves_grid_only m m2 hw hh ms x y fc

def c5wEnt : Entity :=
  { name := "W", hp := 4, x := 2, y := 2, id := "w", max_hp := 4,
    facing := .down, bound := true }

def c5wMatch : Match :=
  { id := "w5"
    name := "W5"
    grid_width := 4
    grid_height := 4
    system_name := "default"
    entities := [("w", c5wEnt)] }

/-- Witness for the amended C5 on a concrete successful move. -/
theorem C5_amended_move_witness :
    c5wEnt.bound = true
    ∧ runMoves c5wMatch [("up", 1)] c5wEnt.x c5wEnt.y c5wEnt.facing = .ok 2 1 .up
    ∧ is_occupied c5wMatch 2 1 (some c5wEnt.id) = false
    ∧ move_dirsE c5wMatch c5wEnt [("up", 1)]
        = ({ c5wEnt with x := 2, y := 1, facing := .up }, .ok ()) :=
  ⟨rfl, rfl, rfl,
   ((C5_amended_move c5wMatch c5wEnt [("up", 1)] rfl).2.1 2 1 .up rfl).2 rfl⟩

/-! ## Loading (claim C9) -/

def c9Mgr : MgrState :=
  { «matches» := []
    active_by_channel := .obj [("chan", .str "old")]
    systems := [("default", { name := .str "default",
                              settings := .obj DEFAULT_SYSTEM_SETTINGS_J })]
    default_system_name := .str "default"
    default_system_per_server := .obj []
    default_system_per_channel := .obj [] }

def c9BadData : Json :=
  .obj [("matches", .obj [("m1", .obj [("id", .str "m1"), ("name", .str "M"),
          ("grid_width", .num 4), ("grid_height", .num 4)])]),
        ("systems", .obj [("x", .obj [])])]

/-- Claim C9 counterexample: a save file whose matches table parses but
whose systems table is malformed (a system without a name) makes load
raise the invalid-format VTTError, yet the manager is left half replaced:
its matches have already been overwritten while its systems are still the
old ones — load is not atomic on failure. -/
theorem C9_counterexample :
    (loadM c9Mgr "save.json" (.ok c9BadData)).2
      = some "Invalid save file format in \x27save.json\x27: KeyError: name"
    ∧ (loadM c9Mgr "save.json" (.ok c9BadData)).1.«matches» ≠ c9Mgr.«matches»
    ∧ (loadM c9Mgr "save.json" (.ok c9BadData)).1.systems = c9Mgr.systems := by
  refine ⟨rfl, ?_, rfl⟩
  intro hcontra
  have hlen : ((loadM c9Mgr "save.json" (.ok c9BadData)).1.«matches»).length = 1 := rfl
  rw [hcontra] at hlen
  simp [c9Mgr] at hlen

/-- Claim C9 (amended): load assigns the manager state piecewise in source
order.  A failure while reading or JSON-decoding the file, or while
parsing the matches table, leaves the manager unchanged; the three read
failures surface as VTTError messages (the not-found message is distinct
from the malformed-file messages) and never as a raw exception; on full
success the entire state is replaced, independently of the prior state.
A failure after the matches table has parsed (for example a malformed
systems entry) leaves the manager partially replaced, as the C9
counterexample shows. -/
theorem C9_amended_load (mgr mgr2 : MgrState) (path em : String) (data : Json) :
    (loadM mgr path .notFound
        = (mgr, some ("File not found: \x27" ++ path ++ "\x27")))
    ∧ (loadM mgr path (.ioErr em)
        = (mgr, some ("Failed to load from \x27" ++ path ++ "\x27: " ++ em)))
    ∧ (loadM mgr path (.badJson em)
        = (mgr, some ("Failed to load from \x27" ++ path ++ "\x27: " ++ em)))
    ∧ (matchesFromJ data = .error em →
        loadM mgr path (.ok data)
          = (mgr, some ("Invalid save file format in \x27" ++ path ++ "\x27: " ++ em)))
    ∧ ((loadM mgr path (.ok data)).2 = none →
        loadM mgr2 path (.ok data) = loadM mgr path (.ok data)) := by
  refine ⟨rfl, rfl, rfl, ?_, ?_⟩
  · intro h
    simp only [loadM, h]
  · intro hok
    simp only [loadM] at hok ⊢
    rcases hm : matchesFromJ data with e | ms
    · simp [hm] at hok
    · simp only [hm] at hok ⊢
      rcases hs : systemsFromJ data with e | sys
      · simp [hs] at hok
      · simp only [hs] at hok ⊢

/-! ## Turn-order rebuild (claim C2) -/

/-- Look an entity up by its id field among the values of the table (a
statement-side accessor used to phrase sortedness of turn_order). -/
def findById (m : Match) (i : String) : Option Entity :=
  (vals m).find? (fun e => e.id == i)

theorem find?_id_unique :
    ∀ (l : List Entity) (e : Entity), e ∈ l → (l.map Entity.id).Nodup →
      l.find? (fun f => f.id == e.id) = some e := by
  intro l
  induction l with
  | nil => intro e he _; cases he
  | cons a as ih =>
    intro e he hnd
    rw [List.map_cons, List.nodup_cons] at hnd
    rcases List.mem_cons.mp he with rfl | hmem
    · exact List.find?_cons_of_pos as (by simp)
    · have hne : ¬(a.id == e.id) = true := by
        simp only [beq_iff_eq]
        intro hcontra
        exact hnd.1 (hcontra ▸ List.mem_map_of_mem Entity.id hmem)
      rw [List.find?_cons_of_neg as hne]
      exact ih e hmem hnd.2

theorem rebuildTO_nodup (m : Match) (hids : ((vals m).map Entity.id).Nodup) :
    (rebuildTO m).Nodup := by
  unfold rebuildTO
  have hperm : (List.insertionSort entLE ((vals m).filter aliveInit)).Perm
      ((vals m).filter aliveInit) := List.perm_insertionSort entLE _
  have hsub : (((vals m).filter aliveInit).map (fun e => e.id)).Sublist
      ((vals m).map Entity.id) :=
    List.Sublist.map _ (List.filter_sublist (vals m))
  have hnd2 : (((vals m).filter aliveInit).map (fun e => e.id)).Nodup :=
    List.Nodup.sublist hsub hids
  exact ((hperm.map (fun e => e.id)).nodup_iff).mpr hnd2

/-- Either the remapped active index is 0, or it is the position of a
non-falsy id that survived into the rebuilt order. -/
theorem rebuildAI_cases (m : Match) :
    rebuildAI m = 0
    ∨ ∃ pid, pid ≠ "" ∧ pid ∈ rebuildTO m
        ∧ rebuildAI m = (rebuildTO m).indexOf pid := by
  unfold rebuildAI
  rcases hp : m.turn_order.get? m.active_index with _ | pid
  · exact Or.inl rfl
  · by_cases hc : pid ≠ "" ∧ pid ∈ rebuildTO m
    · refine Or.inr ⟨pid, hc.1, hc.2, ?_⟩
      show (if pid ≠ "" ∧ pid ∈ rebuildTO m
            then (rebuildTO m).indexOf pid else 0) = (rebuildTO m).indexOf pid
      rw [if_pos hc]
    · refine Or.inl ?_
      show (if pid ≠ "" ∧ pid ∈ rebuildTO m
            then (rebuildTO m).indexOf pid else 0) = 0
      rw [if_neg hc]

theorem rebuildAI_lt (m : Match) (hne : rebuildTO m ≠ []) :
    rebuildAI m < (rebuildTO m).length := by
  have hlen : 0 < (rebuildTO m).length := List.length_pos.mpr hne
  rcases rebuildAI_cases m with h0 | ⟨pid, _, hmem, hidx⟩
  · omega
  · rw [hidx]
    exact List.indexOf_lt_length.mpr hmem

/-- Claim C2 (confirmed): provided the entity values carry pairwise
distinct ids (true of every dict reachable through the API, whose keys
are the ids), a rebuild leaves the entity table untouched and makes
turn_order exactly the ids of the alive, initiative-bearing entities
(each exactly once), sorted by the key (-initiative, lowercased name,
id); and rebuilding again with no intervening state change returns the
very same match (idempotence, covering both turn_order and
active_index). -/
theorem C2_turn_order_rebuild (m : Match)
    (hids : ((vals m).map Entity.id).Nodup) :
    ((_rebuild_turn_order m).entities = m.entities)
    ∧ (∀ i, i ∈ (_rebuild_turn_order m).turn_order
        ↔ ∃ e ∈ vals m, aliveInit e = true ∧ e.id = i)
    ∧ (_rebuild_turn_order m).turn_order.Nodup
    ∧ (_rebuild_turn_order m).turn_order.Pairwise (fun i j =>
        ∀ ei ej, findById m i = some ei → findById m j = some ej →
          entKey ei ≤ entKey ej)
    ∧ _rebuild_turn_order (_rebuild_turn_order m) = _rebuild_turn_order m := by
  have hperm : (List.insertionSort entLE ((vals m).filter aliveInit)).Perm
      ((vals m).filter aliveInit) := List.perm_insertionSort entLE _
  refine ⟨rfl, ?_, ?_, ?_, ?_⟩
  · intro i
    show i ∈ rebuildTO m ↔ _
    unfold rebuildTO
    rw [List.mem_map]
    constructor
    · rintro ⟨e, heS, rfl⟩
      have heF := hperm.mem_iff.mp heS
      rw [List.mem_filter] at heF
      exact ⟨e, heF.1, heF.2, rfl⟩
    · rintro ⟨e, hev, hai, rfl⟩
      exact ⟨e, hperm.mem_iff.mpr (List.mem_filter.mpr ⟨hev, hai⟩), rfl⟩
  · exact rebuildTO_nodup m hids
  · show (rebuildTO m).Pairwise _
    unfold rebuildTO
    rw [List.pairwise_map]
    have hsorted : List.Pairwise entLE
        (List.insertionSort entLE ((vals m).filter aliveInit)) :=
      List.sorted_insertionSort entLE _
    refine hsorted.imp_of_mem ?_
    intro e f heS hfS hle ei ej hfi hfj
    have hev : e ∈ vals m := (List.mem_filter.mp (hperm.mem_iff.mp heS)).1
    have hfv : f ∈ vals m := (List.mem_filter.mp (hperm.mem_iff.mp hfS)).1
    rw [findById, find?_id_unique (vals m) e hev hids] at hfi
    rw [findById, find?_id_unique (vals m) f hfv hids] at hfj
    cases hfi
    cases hfj
    exact hle
  · -- idempotence: the second rebuild recomputes the same order (the
    -- entity table is untouched) and finds the active id at the same spot
    have hnd : (rebuildTO m).Nodup := rebuildTO_nodup m hids
    have hto : rebuildTO (_rebuild_turn_order m) = rebuildTO m := rfl
    have hai2 : rebuildAI (_rebuild_turn_order m) = rebuildAI m := by
      have hstep : rebuildAI (_rebuild_turn_order m)
          = (match (rebuildTO m).get? (rebuildAI m) with
             | some pid => if pid ≠ "" ∧ pid ∈ rebuildTO m
                           then (rebuildTO m).indexOf pid else 0
             | none => 0) := rfl
      rw [hstep]
      rcases hq : (rebuildTO m).get? (rebuildAI m) with _ | q
      · -- index out of range: the rebuilt order must be empty, so the
        -- first rebuild already produced index 0
        rw [List.get?_eq_none] at hq
        rcases rebuildAI_cases m with h0 | ⟨pid, _, hmem, hidx⟩
        · exact h0.symm
        · exfalso
          have := List.indexOf_lt_length.mpr hmem
          omega
      · obtain ⟨hlt, hget⟩ := List.get?_eq_some.mp hq
        have hgetE : (rebuildTO m)[rebuildAI m] = q := by
          simpa [List.get_eq_getElem] using hget
        by_cases hqe : q = ""
        · -- the id found is falsy: the first rebuild must have reset to 0
          subst hqe
          simp only [ne_eq, not_true_eq_false, false_and, if_false]
          rcases rebuildAI_cases m with h0 | ⟨pid, hpne, hpmem, hidx⟩
          · exact h0.symm
          · exfalso
            have hplt : (rebuildTO m).indexOf pid < (rebuildTO m).length :=
              List.indexOf_lt_length.mpr hpmem
            have h1 : (rebuildTO m).get? ((rebuildTO m).indexOf pid)
                = some pid := by
              rw [List.get?_eq_get hplt]
              exact congrArg some (by
                simpa [List.get_eq_getElem] using List.getElem_indexOf hplt)
            rw [hidx] at hq
            rw [h1] at hq
            exact hpne (Option.some.inj hq)
        · have hqmem : q ∈ rebuildTO m := by
            rw [← hgetE]
            exact List.getElem_mem hlt
          have hcond : q ≠ "" ∧ q ∈ rebuildTO m := ⟨hqe, hqmem⟩
          simp only [hcond, and_self, if_true, ne_eq, hqe, not_false_eq_true,
            true_and, hqmem]
          have hidx2 := List.indexOf_getElem hnd (rebuildAI m) hlt
          rw [hgetE] at hidx2
          exact hidx2
    have hexp : _rebuild_turn_order (_rebuild_turn_order m)
        = { _rebuild_turn_order m with
            turn_order := rebuildTO (_rebuild_turn_order m),
            active_index := rebuildAI (_rebuild_turn_order m) } := rfl
    rw [hexp, hto, hai2]
    rfl

def c2wMatch : Match :=
  { id := "w2"
    name := "W2"
    grid_width := 5
    grid_height := 5
    system_name := "default"
    entities := [("gob", { name := "gob", hp := 3, x := 1, y := 1, id := "gob",
                           max_hp := 3, initiative := some 12, bound := true }),
                 ("dead", { name := "Ann", hp := 0, x := 2, y := 1, id := "dead",
                            max_hp := 3, initiative := some 20, bound := true }),
                 ("Rog", { name := "Rog", hp := 9, x := 3, y := 1, id := "Rog",
                           max_hp := 9, initiative := some 17, bound := true }),
                 ("noinit", { name := "Ann", hp := 3, x := 4, y := 1, id := "noinit",
                              max_hp := 3, bound := true })]
    turn_order := ["gob", "dead", "Rog"]
    active_index := 0 }

/-- Witness for C2 on a concrete match (a dead entity and an entity
without initiative are excluded; ordering is by initiative descending). -/
theorem C2_turn_order_rebuild_witness :
    ((vals c2wMatch).map Entity.id).Nodup
    ∧ (_rebuild_turn_order c2wMatch).turn_order.Nodup
    ∧ _rebuild_turn_order (_rebuild_turn_order c2wMatch)
        = _rebuild_turn_order c2wMatch
    ∧ (_rebuild_turn_order c2wMatch).turn_order = ["Rog", "gob"] :=
  ⟨by decide,
   (C2_turn_order_rebuild c2wMatch (by decide)).2.2.1,
   (C2_turn_order_rebuild c2wMatch (by decide)).2.2.2.2,
   by decide⟩

/-! ## Occupancy exclusivity (claim C1) -/

instance (e f : Entity) : Decidable (PosOk e f) := by
  unfold PosOk
  infer_instance

instance (m : Match) : Decidable (OccInv m) := by
  unfold OccInv
  infer_instance

instance (m : Match) : Decidable (WfMatch m) := by
  unfold WfMatch
  infer_instance

theorem posOk_symm (e f : Entity) (h : PosOk e f) : PosOk f e :=
  fun hf he => (h he hf).symm

theorem occInv_of_entities_eq {m m2 : Match} (h : m2.entities = m.entities) :
    OccInv m → OccInv m2 := by
  intro hi
  unfold OccInv at hi ⊢
  rw [h]
  exact hi

theorem rebuild_entities (m : Match) : (_rebuild_turn_order m).entities = m.entities :=
  rfl

theorem scrubTurn_entities (m : Match) (tid : String) :
    (scrubTurn m tid).entities = m.entities := by
  unfold scrubTurn
  split <;> rfl

theorem next_turn_entities (m : Match) : (next_turn m).1.entities = m.entities := by
  unfold next_turn
  split <;> rfl

theorem occInv_filter (m : Match) (pred : (String × Entity) → Bool)
    (h : OccInv m) : OccInv { m with entities := m.entities.filter pred } :=
  List.Pairwise.sublist (List.filter_sublist _) h

theorem occInv_append (m : Match) (k : String) (e3 : Entity)
    (hfree : ∀ p ∈ m.entities, 0 < p.2.hp → (p.2.x, p.2.y) ≠ (e3.x, e3.y))
    (h : OccInv m) : OccInv { m with entities := m.entities ++ [(k, e3)] } := by
  show (m.entities ++ [(k, e3)]).Pairwise _
  rw [List.pairwise_append]
  refine ⟨h, by simp, ?_⟩
  intro p hp q hq
  rw [List.mem_singleton] at hq
  subst hq
  intro hpa _
  exact hfree p hp hpa

theorem is_occupied_false_all (m : Match) (x y : Int)
    (hocc : is_occupied m x y = false) :
    ∀ p ∈ m.entities, 0 < p.2.hp → (p.2.x, p.2.y) ≠ (x, y) := by
  intro p hp halive hcontra
  unfold is_occupied at hocc
  rw [List.any_eq_false] at hocc
  apply hocc p hp
  rw [Prod.mk.injEq] at hcontra
  simp [isAlive, halive, hcontra.1, hcontra.2]

theorem is_occupied_false_other (m : Match) (x y : Int) (s : String)
    (hocc : is_occupied m x y (some s) = false) :
    ∀ p ∈ m.entities, p.1 ≠ s → 0 < p.2.hp → (p.2.x, p.2.y) ≠ (x, y) := by
  intro p hp hk halive hcontra
  unfold is_occupied at hocc
  rw [List.any_eq_false] at hocc
  apply hocc p hp
  rw [Prod.mk.injEq] at hcontra
  simp [isAlive, halive, hcontra.1, hcontra.2, hk]

theorem pairwise_posOk_update :
    ∀ (l : List (String × Entity)) (eid : String) (e2 : Entity),
      (l.map Prod.fst).Nodup →
      (∀ q ∈ l, q.1 ≠ eid → 0 < e2.hp → 0 < q.2.hp →
        (e2.x, e2.y) ≠ (q.2.x, q.2.y)) →
      l.Pairwise (fun p q => PosOk p.2 q.2) →
      (l.map (fun p => if p.1 = eid then (p.1, e2) else p)).Pairwise
        (fun p q => PosOk p.2 q.2) := by
  intro l
  induction l with
  | nil =>
    intro eid e2 _ _ _
    exact List.Pairwise.nil
  | cons a as ih =>
    intro eid e2 hnd hsafe hpw
    rw [List.map_cons, List.nodup_cons] at hnd
    rw [List.pairwise_cons] at hpw
    rw [List.map_cons, List.pairwise_cons]
    constructor
    · intro q2 hq2
      rw [List.mem_map] at hq2
      obtain ⟨q, hqmem, rfl⟩ := hq2
      by_cases hak : a.1 = eid
      · have hqk : q.1 ≠ eid := by
          intro hcontra
          exact hnd.1 (hak ▸ hcontra ▸ List.mem_map_of_mem Prod.fst hqmem)
        rw [if_pos hak, if_neg hqk]
        intro he2 hq
        exact hsafe q (List.mem_cons_of_mem a hqmem) hqk he2 hq
      · rw [if_neg hak]
        by_cases hqk : q.1 = eid
        · rw [if_pos hqk]
          intro ha he2
          exact (hsafe a (List.mem_cons_self a as) hak he2 ha).symm
        · rw [if_neg hqk]
          exact hpw.1 q hqmem
    · exact ih eid e2 hnd.2
        (fun q hq => hsafe q (List.mem_cons_of_mem a hq)) hpw.2

theorem occInv_update (m : Match) (eid : String) (e2 : Entity)
    (hkeys : (m.entities.map Prod.fst).Nodup)
    (hsafe : ∀ q ∈ m.entities, q.1 ≠ eid → 0 < e2.hp → 0 < q.2.hp →
      (e2.x, e2.y) ≠ (q.2.x, q.2.y))
    (hinv : OccInv m) : OccInv (updateEnt m eid (fun _ => e2)) :=
  pairwise_posOk_update m.entities eid e2 hkeys hsafe hinv

/-- Replacing the entity stored at eid with one at the same position that
cannot be alive unless the original was preserves the invariant. -/
theorem occInv_update_same_pos (m : Match) (eid : String) (e e2 : Entity)
    (hkeys : (m.entities.map Prod.fst).Nodup)
    (hfind : getEnt m eid = some e)
    (hx : e2.x = e.x) (hy : e2.y = e.y) (hhp : 0 < e2.hp → 0 < e.hp)
    (hinv : OccInv m) : OccInv (updateEnt m eid (fun _ => e2)) := by
  apply occInv_update m eid e2 hkeys _ hinv
  intro q hq hqk he2 hq2
  obtain ⟨p0, hfind0, hp0e⟩ := Option.map_eq_some'.mp hfind
  have hp0mem := List.mem_of_find?_eq_some hfind0
  have hp0k : p0.1 = eid := by simpa using List.find?_some hfind0
  have hne : p0 ≠ q := fun hcontra => hqk (hcontra ▸ hp0k)
  have hR := List.Pairwise.forall
    (R := fun (p q : String × Entity) => PosOk p.2 q.2)
    (fun p q h => posOk_symm p.2 q.2 h) hinv hp0mem hq hne
  have h0alive : 0 < p0.2.hp := by
    rw [hp0e]
    exact hhp he2
  have hne2 := hR h0alive hq2
  rw [hp0e] at hne2
  rw [hx, hy]
  exact hne2

theorem bindE_x (m : Match) (e : Entity) : (bindE m e).x = e.x := by
  unfold bindE
  split <;> rfl

theorem bindE_y (m : Match) (e : Entity) : (bindE m e).y = e.y := by
  unfold bindE
  split <;> rfl

/-- What a successful spawn did: the cell was in bounds and unoccupied,
and the new match is a rebuild of the old one with one entity appended at
that cell. -/
theorem spawn_success (m : Match) (e : Entity) (x y : Int) (ini : Option Int)
    (m2 : Match) (e2 : Entity) (r : String)
    (h : spawn m e x y ini = (m2, e2, .ok r)) :
    is_occupied m x y = false
    ∧ ∃ e3 : Entity, e3.x = x ∧ e3.y = y
        ∧ m2 = _rebuild_turn_order
            { m with entities := m.entities ++ [(e3.id, e3)] } := by
  unfold spawn at h
  by_cases hb : e.bound = true
  · rw [if_pos hb] at h
    simp at h
  · rw [if_neg hb] at h
    by_cases hin : (!(in_bounds m x y)) = true
    · rw [if_pos hin] at h
      simp at h
    · rw [if_neg hin] at h
      by_cases hocc : is_occupied m x y = true
      · rw [if_pos hocc] at h
        simp at h
      · rw [if_neg hocc] at h
        by_cases hdup : (m.entities.any (fun p =>
            p.1 == (spawnedEntity m e x y ini).id)) = true
        · rw [if_pos hdup] at h
          simp at h
        · rw [if_neg hdup] at h
          simp only [Prod.mk.injEq] at h
          refine ⟨by simpa using hocc, spawnedEntity m e x y ini, ?_, ?_, h.1.symm⟩
          · show (spawnedEntity m e x y ini).x = x
            unfold spawnedEntity
            cases ini <;> simp [bindE_x, move_to]
          · show (spawnedEntity m e x y ini).y = y
            unfold spawnedEntity
            cases ini <;> simp [bindE_y, move_to]

/-- What a successful teleport did. -/
theorem tpCmd_success (m : Match) (eid : String) (x y : Int) (m2 : Match)
    (h : tpCmd m eid x y = (m2, .ok ())) :
    ∃ e, getEnt m eid = some e
      ∧ is_occupied m x y (some e.id) = false
      ∧ m2 = updateEnt m eid (fun _ => { e with x := x, y := y }) := by
  unfold tpCmd at h
  rcases hg : getEnt m eid with _ | e
  · simp only [hg] at h
    simp at h
  · simp only [hg] at h
    rcases hte : tpE m e x y with ⟨e2, r⟩
    simp only [hte] at h
    simp only [Prod.mk.injEq] at h
    obtain ⟨hm2, hr⟩ := h
    subst hr
    unfold tpE at hte
    by_cases hb : (!e.bound) = true
    · rw [if_pos hb] at hte
      simp at hte
    · rw [if_neg hb] at hte
      by_cases hib : (!(in_bounds m x y)) = true
      · rw [if_pos hib] at hte
        simp at hte
      · rw [if_neg hib] at hte
        by_cases hoc : is_occupied m x y (some e.id) = true
        · rw [if_pos hoc] at hte
          simp at hte
        · rw [if_neg hoc] at hte
          simp only [Prod.mk.injEq] at hte
          refine ⟨e, rfl, by simpa using hoc, ?_⟩
          rw [← hm2, ← hte.1]
          rfl

/-- What a successful stepwise move did. -/
theorem moveCmd_success (m : Match) (eid : String) (moves : List (String × Int))
    (m2 : Match) (h : moveCmd m eid moves = (m2, .ok ())) :
    ∃ e x y fc, getEnt m eid = some e
      ∧ is_occupied m x y (some e.id) = false
      ∧ m2 = updateEnt m eid (fun _ => { e with x := x, y := y, facing := fc }) := by
  unfold moveCmd at h
  rcases hg : getEnt m eid with _ | e
  · simp only [hg] at h
    simp at h
  · simp only [hg] at h
    rcases hme : move_dirsE m e moves with ⟨e2, r⟩
    simp only [hme] at h
    simp only [Prod.mk.injEq] at h
    obtain ⟨hm2, hr⟩ := h
    subst hr
    unfold move_dirsE at hme
    by_cases hb : (!e.bound) = true
    · rw [if_pos hb] at hme
      simp at hme
    · rw [if_neg hb] at hme
      rcases hrm : runMoves m moves e.x e.y e.facing with ⟨x, y, fc⟩ | ⟨er, fc⟩
      · simp only [hrm] at hme
        by_cases hoc : is_occupied m x y (some e.id) = true
        · rw [if_pos hoc] at hme
          simp at hme
        · rw [if_neg hoc] at hme
          simp only [Prod.mk.injEq] at hme
          refine ⟨e, x, y, fc, rfl, by simpa using hoc, ?_⟩
          rw [← hm2, ← hme.1]
      · simp only [hrm] at hme
        simp at hme

/-- What a successful damage application did. -/
theorem damageCmd_success (m : Match) (eid : String) (amount : Int)
    (m2 : Match) (h : damageCmd m eid amount = (m2, .ok ())) :
    ∃ e, getEnt m eid = some e
      ∧ (m2 = updateEnt m eid (fun _ => take_damage e amount)
         ∨ m2 = _rebuild_turn_order (updateEnt m eid (fun _ => take_damage e amount))) := by
  unfold damageCmd at h
  rcases hg : getEnt m eid with _ | e
  · simp only [hg] at h
    simp at h
  · simp only [hg] at h
    by_cases hcross : (isAlive e && !(isAlive (take_damage e amount))) = true
    · rw [if_pos hcross] at h
      by_cases hbd : (take_damage e amount).bound = true
      · rw [if_pos hbd] at h
        simp only [Prod.mk.injEq] at h
        exact ⟨e, rfl, Or.inr h.1.symm⟩
      · rw [if_neg hbd] at h
        simp at h
    · rw [if_neg hcross] at h
      simp only [Prod.mk.injEq] at h
      exact ⟨e, rfl, Or.inl h.1.symm⟩

/-- What a successful initiative change did. -/
theorem setInitiativeCmd_success (m : Match) (eid : String) (v : Int)
    (m2 : Match) (h : setInitiativeCmd m eid v = (m2, .ok ())) :
    ∃ e, getEnt m eid = some e
      ∧ m2 = _rebuild_turn_order
          (updateEnt m eid (fun _ => { e with initiative := some v })) := by
  unfold setInitiativeCmd at h
  rcases hg : getEnt m eid with _ | e
  · simp only [hg] at h
    simp at h
  · simp only [hg] at h
    by_cases hbd : ({ e with initiative := some v } : Entity).bound = true
    · rw [if_pos hbd] at h
      simp only [Prod.mk.injEq] at h
      exact ⟨e, rfl, h.1.symm⟩
    · rw [if_neg hbd] at h
      simp at h

/-- What a successful removal did. -/
theorem removeCmd_success (m : Match) (eid : String) (m2 : Match)
    (h : removeCmd m eid = (m2, .ok ())) :
    ∃ e, getEnt m eid = some e
      ∧ m2 = _rebuild_turn_order (scrubTurn
          { m with entities := m.entities.filter (fun p => !(p.1 == e.id)) } e.id) := by
  unfold removeCmd at h
  rcases hg : getEnt m eid with _ | e
  · simp only [hg] at h
    simp at h
  · simp only [hg] at h
    by_cases hb : (!e.bound) = true
    · rw [if_pos hb] at h
      simp at h
    · rw [if_neg hb] at h
      simp only [Prod.mk.injEq] at h
      exact ⟨e, rfl, h.1.symm⟩

/-- getEnt finding e under a well-formed table means e.id is the key. -/
theorem getEnt_id (m : Match) (eid : String) (e : Entity)
    (hvalid : ∀ p ∈ m.entities, p.2.id = p.1)
    (hfind : getEnt m eid = some e) : e.id = eid := by
  obtain ⟨p0, hfind0, hp0e⟩ := Option.map_eq_some'.mp hfind
  have hp0mem := List.mem_of_find?_eq_some hfind0
  have hp0k : p0.1 = eid := by simpa using List.find?_some hfind0
  rw [← hp0e, hvalid p0 hp0mem, hp0k]

/-- Claim C1 (amended): occupancy exclusivity (no two living entities on
one cell, pairwise over the entity table) is preserved by every
successful spawn, teleport, stepwise move, damage, removal, initiative
change and turn advance on a well-formed match; a successful heal is the
exception and can break it, as the C1 counterexample shows, by reviving
a dead entity on a cell a living entity has since moved onto. -/
theorem C1_occupancy_preserved (m : Match) (op : Op)
    (hwf : WfMatch m) (hinv : OccInv m) (hok : (applyOp m op).2 = true) :
    OccInv (applyOp m op).1 := by
  obtain ⟨hkeys, hvalid⟩ := hwf
  cases op with
  | spawnOp e x y ini =>
    have hok2 : exceptOk (spawn m e x y ini).2.2 = true := hok
    show OccInv (spawn m e x y ini).1
    rcases hsp : spawn m e x y ini with ⟨m2, e2, r⟩
    rw [hsp] at hok2
    rcases r with er | rr
    · simp [exceptOk] at hok2
    · obtain ⟨hocc, e3, hx, hy, hm2⟩ := spawn_success m e x y ini m2 e2 rr hsp
      rw [hm2]
      apply occInv_of_entities_eq (rebuild_entities _)
      apply occInv_append
      · intro p hp halive
        rw [hx, hy]
        exact is_occupied_false_all m x y hocc p hp halive
      · exact hinv
  | tpOp eid x y =>
    have hok2 : exceptOk (tpCmd m eid x y).2 = true := hok
    show OccInv (tpCmd m eid x y).1
    rcases htc : tpCmd m eid x y with ⟨m2, r⟩
    rw [htc] at hok2
    rcases r with er | u
    · simp [exceptOk] at hok2
    · cases u
      obtain ⟨e, hg, hocc, hm2⟩ := tpCmd_success m eid x y m2 htc
      rw [hm2]
      have heid : e.id = eid := getEnt_id m eid e hvalid hg
      apply occInv_update m eid _ hkeys _ hinv
      intro q hq hqk _ hq2
      show ¬((x, y) = (q.2.x, q.2.y))
      intro hcontra
      exact is_occupied_false_other m x y e.id hocc q hq (heid ▸ hqk) hq2 hcontra.symm
  | moveOp eid moves =>
    have hok2 : exceptOk (moveCmd m eid moves).2 = true := hok
    show OccInv (moveCmd m eid moves).1
    rcases htc : moveCmd m eid moves with ⟨m2, r⟩
    rw [htc] at hok2
    rcases r with er | u
    · simp [exceptOk] at hok2
    · cases u
      obtain ⟨e, x, y, fc, hg, hocc, hm2⟩ := moveCmd_success m eid moves m2 htc
      rw [hm2]
      have heid : e.id = eid := getEnt_id m eid e hvalid hg
      apply occInv_update m eid _ hkeys _ hinv
      intro q hq hqk _ hq2
      show ¬((x, y) = (q.2.x, q.2.y))
      intro hcontra
      exact is_occupied_false_other m x y e.id hocc q hq (heid ▸ hqk) hq2 hcontra.symm
  | damageOp eid amount =>
    have hok2 : exceptOk (damageCmd m eid amount).2 = true := hok
    show OccInv (damageCmd m eid amount).1
    rcases htc : damageCmd m eid amount with ⟨m2, r⟩
    rw [htc] at hok2
    rcases r with er | u
    · simp [exceptOk] at hok2
    · cases u
      obtain ⟨e, hg, hm2⟩ := damageCmd_success m eid amount m2 htc
      have hupd : OccInv (updateEnt m eid (fun _ => take_damage e amount)) := by
        refine occInv_update_same_pos m eid e (take_damage e amount) hkeys hg
          rfl rfl ?_ hinv
        intro h2
        simp only [take_damage] at h2
        omega
      rcases hm2 with hm2 | hm2 <;> rw [hm2]
      · exact hupd
      · exact occInv_of_entities_eq (rebuild_entities _) hupd
  | removeOp eid =>
    have hok2 : exceptOk (removeCmd m eid).2 = true := hok
    show OccInv (removeCmd m eid).1
    rcases htc : removeCmd m eid with ⟨m2, r⟩
    rw [htc] at hok2
    rcases r with er | u
    · simp [exceptOk] at hok2
    · cases u
      obtain ⟨e, hg, hm2⟩ := removeCmd_success m eid m2 htc
      rw [hm2]
      apply occInv_of_entities_eq (rebuild_entities _)
      apply occInv_of_entities_eq (scrubTurn_entities _ _)
      exact occInv_filter m _ hinv
  | initOp eid v =>
    have hok2 : exceptOk (setInitiativeCmd m eid v).2 = true := hok
    show OccInv (setInitiativeCmd m eid v).1
    rcases htc : setInitiativeCmd m eid v with ⟨m2, r⟩
    rw [htc] at hok2
    rcases r with er | u
    · simp [exceptOk] at hok2
    · cases u
      obtain ⟨e, hg, hm2⟩ := setInitiativeCmd_success m eid v m2 htc
      rw [hm2]
      apply occInv_of_entities_eq (rebuild_entities _)
      exact occInv_update_same_pos m eid e _ hkeys hg rfl rfl (fun h => h) hinv
  | nextOp =>
    show OccInv (next_turn m).1
    exact occInv_of_entities_eq (next_turn_entities m) hinv

def c1wMatch : Match :=
  { id := "w1"
    name := "W1"
    grid_width := 4
    grid_height := 4
    system_name := "default"
    entities := [("a", { name := "A", hp := 3, x := 1, y := 1, id := "a",
                         max_hp := 3, bound := true }),
                 ("b", { name := "B", hp := 3, x := 2, y := 2, id := "b",
                         max_hp := 3, bound := true })] }

/-- Witness for the amended C1 at a concrete successful teleport. -/
theorem C1_occupancy_preserved_witness :
    WfMatch c1wMatch ∧ OccInv c1wMatch
    ∧ (applyOp c1wMatch (Op.tpOp "a" 3 3)).2 = true
    ∧ OccInv (applyOp c1wMatch (Op.tpOp "a" 3 3)).1 :=
  ⟨by decide, by decide, by decide,
   C1_occupancy_preserved c1wMatch (Op.tpOp "a" 3 3) (by decide) (by decide)
     (by decide)⟩

def c1M0 : Match :=
  { id := "m", name := "M", grid_width := 3, grid_height := 3,
    system_name := "default" }

def c1A : Entity := mkEntity "a" "Alice" 2 0 0

def c1B : Entity := mkEntity "b" "Bob" 2 0 0

def c1M1 : Match := (spawn c1M0 c1A 1 1).1

def c1M2 : Match := (spawn c1M1 c1B 2 1).1

def c1M3 : Match := (damageCmd c1M2 "a" 5).1

def c1M4 : Match := (tpCmd c1M3 "b" 1 1).1

def c1M5 : Match := (healCmd c1M4 "a" 10).1

/-- Claim C1 counterexample: spawn Alice at (1,1) and Bob at (2,1), damage
Alice to -3 hp (dead), teleport Bob onto (1,1) (legal: dead entities are
exempt from the occupancy check), then heal Alice by 10: every operation
succeeds, yet afterwards Alice (hp 2) and Bob (hp 2) are both alive on
(1,1) — a successful heal operation broke occupancy exclusivity. -/
theorem C1_counterexample :
    exceptOk (spawn c1M0 c1A 1 1).2.2 = true
    ∧ exceptOk (spawn c1M1 c1B 2 1).2.2 = true
    ∧ exceptOk (damageCmd c1M2 "a" 5).2 = true
    ∧ exceptOk (tpCmd c1M3 "b" 1 1).2 = true
    ∧ exceptOk (healCmd c1M4 "a" 10).2 = true
    ∧ OccInv c1M4
    ∧ ¬ OccInv c1M5 := by
  refine ⟨rfl, rfl, rfl, rfl, rfl, by decide, by decide⟩

def c9wData : Json := .obj [("matches", .num 3)]

/-- Witness for the amended C9 at a concrete malformed matches table. -/
theorem C9_amended_load_witness :
    matchesFromJ c9wData = .error "AttributeError: matches has no items"
    ∧ loadM c9Mgr "s.json" (.ok c9wData)
        = (c9Mgr, some "Invalid save file format in \x27s.json\x27: AttributeError: matches has no items") :=
  ⟨rfl,
   (C9_amended_load c9Mgr c9Mgr "s.json" "AttributeError: matches has no items"
      c9wData).2.2.2.1 rfl⟩

end VTT
